import Mathlib

/-!
Verification development for the sparrow language implementation
(lexer, parser data, value semantics and tree-walking interpreter).

The definitions in the first half of this file are shallow embeddings of the
Python source under `src/language/`:

* `src/language/resources/tokens/token_types.py` — `TokenType`, `Token`;
* `src/language/lexer/lexer.py` — `Lexer.tokenize` and its helpers;
* `src/language/resources/nodes/nodes.py` — the `Number`, `String`, `List`
  runtime value classes and the AST node classes;
* `src/language/resources/symbol_table/symbol_table.py` — `SymbolTable`;
* `src/language/interpreter/lang_interpreter.py` — the visitor interpreter.

Modelling conventions:

* The lexer's character cursor is modelled by the list of remaining
  characters; `advance` is `List.tail`.
* Python exceptions are modelled by `Except PyErr`; a raised exception
  aborts the computation, as in the source (there is a single
  `try/except KeyError` in `visit_FunctionCallNode`, modelled explicitly).
* Divergence (the lexer's dispatch loop not advancing, unbounded `while`
  loops, recursion through function calls) is modelled with a fuel
  parameter; `none` means the computation did not finish within the fuel.
* Python `float` is modelled by exact rationals (`Rat`).  Every theorem
  below depends only on the int/float tag of a result or on
  integer-valued payloads, never on IEEE-754 rounding, which the rational
  model does not reproduce.  `NaN`/`inf` are not representable; no theorem
  below evaluates an operation whose Python result would be one of them.
-/

/-- Python exceptions that the modelled code can raise. -/
inductive PyErr where
  | keyError
  | indexError
  | typeError
  | attributeError
  | valueError
  | zeroDivisionError
  | noVisitMethod
  | unboundLocal
  | ioUnmodelled
  deriving DecidableEq, Repr

/-- Token kinds, mirroring the `TokenType` enum in
`src/language/resources/tokens/token_types.py`.  The enum has exactly the
25 members `IDENTIFIER = 1` … `ACCESS = 25`; in particular it has no
`LIST` and no `SLICE` member, although `lang_parser.py` refers to
`TokenType.LIST` and `TokenType.SLICE`. -/
inductive TokenType where
  | IDENTIFIER
  | KEYWORD
  | BLOCK_OPEN
  | BLOCK_CLOSE
  | METHOD
  | EQ
  | INT
  | FLOAT
  | PLUS
  | MINUS
  | MULT
  | DIV
  | EXP
  | NEWLINE
  | LPAREN
  | RPAREN
  | SEPARATOR
  | STRING
  | IS_EQ
  | N_EQ
  | GT
  | LT
  | LTE
  | GTE
  | ACCESS
  deriving DecidableEq, Repr

/-- The name of a `TokenType` member, as written in the source enum. -/
def tokenTypeName : TokenType → String
  | .IDENTIFIER => "IDENTIFIER"
  | .KEYWORD => "KEYWORD"
  | .BLOCK_OPEN => "BLOCK_OPEN"
  | .BLOCK_CLOSE => "BLOCK_CLOSE"
  | .METHOD => "METHOD"
  | .EQ => "EQ"
  | .INT => "INT"
  | .FLOAT => "FLOAT"
  | .PLUS => "PLUS"
  | .MINUS => "MINUS"
  | .MULT => "MULT"
  | .DIV => "DIV"
  | .EXP => "EXP"
  | .NEWLINE => "NEWLINE"
  | .LPAREN => "LPAREN"
  | .RPAREN => "RPAREN"
  | .SEPARATOR => "SEPARATOR"
  | .STRING => "STRING"
  | .IS_EQ => "IS_EQ"
  | .N_EQ => "N_EQ"
  | .GT => "GT"
  | .LT => "LT"
  | .LTE => "LTE"
  | .GTE => "GTE"
  | .ACCESS => "ACCESS"

/-- The member names of the source `TokenType` enum, in declaration order. -/
def tokenTypeNames : List String :=
  ["IDENTIFIER", "KEYWORD", "BLOCK_OPEN", "BLOCK_CLOSE", "METHOD", "EQ",
   "INT", "FLOAT", "PLUS", "MINUS", "MULT", "DIV", "EXP", "NEWLINE",
   "LPAREN", "RPAREN", "SEPARATOR", "STRING", "IS_EQ", "N_EQ", "GT", "LT",
   "LTE", "GTE", "ACCESS"]

/-- The token-kind names of the closed set in §6.2 of the specification,
transcribed from the spec's words (not from the source) for the refinement
comparison of claim C1. -/
def specTokenKindNames : List String :=
  ["IDENTIFIER", "KEYWORD", "BLOCK_OPEN", "BLOCK_CLOSE", "METHOD", "EQ",
   "INT", "FLOAT", "PLUS", "MINUS", "MULT", "DIV", "EXP", "NEWLINE",
   "LPAREN", "RPAREN", "SEPARATOR", "STRING", "IS_EQ", "N_EQ", "GT", "LT",
   "LTE", "GTE", "ACCESS", "LIST", "SLICE"]

/-- A token `(kind, lexeme)`, mirroring the `Token` class. -/
structure Token where
  type : TokenType
  value : String
  deriving DecidableEq, Repr

/-- The `KEYWORDS` list at the top of `src/language/lexer/lexer.py`:
`['define', 'cls', 'give', 'if', 'elif', 'else', 'and', 'or', 'not',
'for', 'while']`.  Note that `'return'` and `'object'` are absent. -/
def KEYWORDS : List String :=
  ["define", "cls", "give", "if", "elif", "else", "and", "or", "not",
   "for", "while"]

/-- `c in ' \t'`. -/
def isSpaceTab (c : Char) : Bool :=
  c == ' ' || c == '\t'

/-- `c == '"' or c == "'"` (string-quote dispatch). -/
def isQuote (c : Char) : Bool :=
  c == '"' || c == '\''

/-- `c in` the operator dispatch set `+ - / * ^ ( ) ! = < >`. -/
def isOpChar (c : Char) : Bool :=
  c == '+' || c == '-' || c == '/' || c == '*' || c == '^' || c == '(' ||
  c == ')' || c == '!' || c == '=' || c == '<' || c == '>'

/-- `c in '0124356789.'` — the number-scanner dispatch set of
`Lexer.tokenize` (the source writes the digits in a scrambled order, but
all ten are present, plus the decimal point). -/
def isDigitDot (c : Char) : Bool :=
  c == '0' || c == '1' || c == '2' || c == '4' || c == '3' || c == '5' ||
  c == '6' || c == '7' || c == '8' || c == '9' || c == '.'

/-- `c in LETTERS_DIGITS + '_'` where
`LETTERS_DIGITS = string.ascii_letters + '0123456789'`. -/
def isIdentChar (c : Char) : Bool :=
  ('a' ≤ c && c ≤ 'z') || ('A' ≤ c && c ≤ 'Z') || ('0' ≤ c && c ≤ '9') ||
  c == '_'

/-- A character is recognized when some branch of the `Lexer.tokenize`
dispatch chain fires on it.  When every one of these tests is false, the
loop body of `tokenize` does nothing and the cursor does not advance. -/
def isRecognizedChar (c : Char) : Bool :=
  isSpaceTab c || c == '\n' || isQuote c || c == ',' || isOpChar c ||
  c == '\x7b' || c == '\x7d' || isDigitDot c || isIdentChar c

/-- `text.replace('\n\n', '\n')` from `Lexer.__init__` (Python `replace`
substitutes left to right, non-overlapping). -/
def collapseNewlines : List Char → List Char
  | '\n' :: '\n' :: cs => '\n' :: collapseNewlines cs
  | c :: cs => c :: collapseNewlines cs
  | [] => []

/-- The greedy scan loop of `Lexer.make_identifier`: split off the longest
prefix of identifier characters. -/
def identSpan : List Char → List Char × List Char
  | [] => ([], [])
  | c :: cs =>
    if isIdentChar c then
      let (a, r) := identSpan cs
      (c :: a, r)
    else ([], c :: cs)

/-- `Lexer.make_identifier`: scan the identifier starting at the current
character, then emit `KEYWORD` when the lexeme is in `KEYWORDS`, else
`IDENTIFIER`. -/
def makeIdentifier (cs : List Char) : Token × List Char :=
  let (a, r) := identSpan cs
  let idStr := String.mk a
  (⟨if idStr ∈ KEYWORDS then .KEYWORD else .IDENTIFIER, idStr⟩, r)

/-- The scan loop of `Lexer.make_number`: consume characters from
`'0123456789.'`, counting decimal points; on the second decimal point the
loop breaks *before* consuming it.  Returns the consumed characters, the
final `dec_count`, and the rest. -/
def numSpan : List Char → Nat → List Char × Nat × List Char
  | [], dc => ([], dc, [])
  | c :: cs, dc =>
    if c == '0' || c == '1' || c == '2' || c == '3' || c == '4' ||
        c == '5' || c == '6' || c == '7' || c == '8' || c == '9' ||
        c == '.' then
      let dc' := if c == '.' then dc + 1 else dc
      if dc' > 1 then ([], dc', c :: cs)
      else
        let (a, d, r) := numSpan cs dc'
        (c :: a, d, r)
    else ([], dc, c :: cs)

/-- `Lexer.make_number`.  The first character `c` (which made the dispatch
choose the number scanner) is consumed unconditionally and not counted in
`dec_count`.  A leading `'.'` is normalized to `0.x`, a trailing `'.'` to
`x.0` (Python's `startswith`/`endswith` branches, the second an `elif`).
With `dec_count ≤ 1` the token is `INT` (no point) or `FLOAT`; with
`dec_count > 1` the Python function falls off the end and returns `None`,
modelled by `none`. -/
def makeNumber (c : Char) (cs : List Char) : Option Token × List Char :=
  let (a, dc, r) := numSpan cs 0
  let idStr := c :: a
  let idStr :=
    if idStr.head? = some '.' then '0' :: idStr
    else if idStr.getLast? = some '.' then idStr ++ ['0']
    else idStr
  if dc ≤ 1 then
    (some ⟨if dc == 0 then .INT else .FLOAT, String.mk idStr⟩, r)
  else (none, r)

/-- The scan loop of `Lexer.make_string`: read up to (not including) the
matching quote, or to the end of input.  The rest starts at the closing
quote when there is one. -/
def strSpan (q : Char) : List Char → List Char × List Char
  | [] => ([], [])
  | c :: cs =>
    if c == q then ([], c :: cs)
    else
      let (a, r) := strSpan q cs
      (c :: a, r)

/-- `Lexer.make_string` (no escape processing).  The closing quote is left
in the rest; `tokenize` advances past it separately. -/
def makeString (q : Char) (cs : List Char) : Token × List Char :=
  let (a, r) := strSpan q cs
  (⟨.STRING, String.mk a⟩, r)

/-- `Lexer.make_operator`.  `c` is the dispatched operator character and
`cs` the characters after it.  The two-character scans mirror the source:
`'!'` appends the next character unconditionally (`str + None` raises
`TypeError` at end of input); `'='`, `'<'`, `'>'` peek `text[pos + 1]`
(raising `IndexError` at end of input).  A character outside the handled
set would leave Python's `token` variable unbound (`UnboundLocalError`);
`tokenize` never calls the function on such a character. -/
def makeOperator (c : Char) (cs : List Char) : Except PyErr (Token × List Char) :=
  if c == '+' then .ok (⟨.PLUS, "+"⟩, cs)
  else if c == '-' then .ok (⟨.MINUS, "-"⟩, cs)
  else if c == '*' then .ok (⟨.MULT, "*"⟩, cs)
  else if c == '/' then .ok (⟨.DIV, "/"⟩, cs)
  else if c == '^' then .ok (⟨.EXP, "^"⟩, cs)
  else if c == '(' then .ok (⟨.LPAREN, "("⟩, cs)
  else if c == ')' then .ok (⟨.RPAREN, ")"⟩, cs)
  else if c == '!' then
    match cs with
    | [] => .error .typeError
    | c2 :: cs2 => .ok (⟨.N_EQ, String.mk ['!', c2]⟩, cs2)
  else if c == '=' then
    match cs with
    | [] => .error .indexError
    | c2 :: cs2 =>
      if c2 == '=' then .ok (⟨.IS_EQ, "=="⟩, cs2)
      else .ok (⟨.EQ, "="⟩, c2 :: cs2)
  else if c == '<' then
    match cs with
    | [] => .error .indexError
    | c2 :: cs2 =>
      if c2 == '=' then .ok (⟨.LTE, "<="⟩, cs2)
      else .ok (⟨.LT, "<"⟩, c2 :: cs2)
  else if c == '>' then
    match cs with
    | [] => .error .indexError
    | c2 :: cs2 =>
      if c2 == '=' then .ok (⟨.GTE, ">="⟩, cs2)
      else .ok (⟨.GT, ">"⟩, c2 :: cs2)
  else .error .unboundLocal

/-- Prepend an emitted token to the result of the remaining scan. -/
def consTok (t : Option Token) :
    Option (Except PyErr (List (Option Token))) →
    Option (Except PyErr (List (Option Token)))
  | some (.ok l) => some (.ok (t :: l))
  | x => x

/-- `Lexer.tokenize`, over the remaining character list.  Branches appear
in source order.  The final (absent) else-branch of the source's dispatch
chain leaves the cursor unmoved, so an unrecognized character makes the
`while` loop spin forever; the fuel parameter makes this a `none` result
for every fuel.  `make_number` can return Python `None`, which the source
appends to the token list unchanged — hence `List (Option Token)`. -/
def tokenize : Nat → List Char → Option (Except PyErr (List (Option Token)))
  | 0, _ => none
  | _ + 1, [] => some (.ok [])
  | fuel + 1, c :: cs =>
    if isSpaceTab c then tokenize fuel cs
    else if c == '\n' then consTok (some ⟨.NEWLINE, "\n"⟩) (tokenize fuel cs)
    else if isQuote c then
      consTok (some (makeString c cs).1) (tokenize fuel ((makeString c cs).2).tail)
    else if c == ',' then consTok (some ⟨.SEPARATOR, ","⟩) (tokenize fuel cs)
    else if isOpChar c then
      match makeOperator c cs with
      | .ok (t, r) => consTok (some t) (tokenize fuel r)
      | .error e => some (.error e)
    else if c == '\x7b' then
      consTok (some ⟨.BLOCK_OPEN, "\x7b"⟩) (tokenize fuel cs)
    else if c == '\x7d' then
      consTok (some ⟨.BLOCK_CLOSE, "\x7d"⟩) (tokenize fuel cs)
    else if isDigitDot c then
      consTok (makeNumber c cs).1 (tokenize fuel (makeNumber c cs).2)
    else if isIdentChar c then
      consTok (some (makeIdentifier (c :: cs)).1)
        (tokenize fuel (makeIdentifier (c :: cs)).2)
    else tokenize fuel (c :: cs)

/-- Whole-pipeline lexing of a source string: newline collapsing followed
by `tokenize`. -/
def lexText (fuel : Nat) (s : String) : Option (Except PyErr (List (Option Token))) :=
  tokenize fuel (collapseNewlines s.data)

/-- The token kinds some branch of the lexer can emit (every `Token(...)`
constructor call reachable from `tokenize`). -/
def lexerEmittedTypes : List TokenType :=
  [.NEWLINE, .STRING, .SEPARATOR, .PLUS, .MINUS, .MULT, .DIV, .EXP,
   .LPAREN, .RPAREN, .N_EQ, .IS_EQ, .EQ, .LTE, .LT, .GTE, .GT,
   .BLOCK_OPEN, .BLOCK_CLOSE, .INT, .FLOAT, .KEYWORD, .IDENTIFIER]

/-! ## Runtime number values (`Number` in nodes.py)

`Number.__init__` stores `int(value)` when `'.' not in str(value)`, else
`float(value)`.  A Python `int` never prints with a `'.'`, so an integer
result stays integer-represented.  A Python `float` result usually prints
with a `'.'` and stays float-represented, but `str` of a float omits the
dot exactly when the value prints in bare exponent notation — a
single-digit mantissa with decimal exponent at least 16 or at most -5,
i.e. the value is `d * 10^e` with `1 ≤ d ≤ 9` and (`16 ≤ e` or
`e ≤ -5`) — and such a float result is re-classified to the truncated
`int` (`str(1e-05) = "1e-05"`, so `Number(1e-05)` stores the int 0;
`str(1e+16) = "1e+16"`, so `Number(1e16)` stores the int 10^16; by
contrast `str(1.5e+16)` and `str(1.25e-05)` keep a dot and stay float).
The model applies this classification to the exact rational value of the
result (see the header note on the float model): it coincides with the
source whenever the exact result round-trips through the IEEE double,
which holds at every input the theorems below touch. -/

/-- A `Number` payload: a Python `int`, or a Python `float` modelled as an
exact rational (see the header note on the float model). -/
inductive PyNum where
  | int (n : Int)
  | float (q : Rat)
  deriving DecidableEq, Repr

/-- The numeric value, ignoring the int/float tag. -/
def PyNum.toRat : PyNum → Rat
  | .int n => (n : Rat)
  | .float q => q

/-- Whether the value is integer-represented. -/
def PyNum.isIntTag : PyNum → Bool
  | .int _ => true
  | .float _ => false

/-- Python truthiness of a number: non-zero is true. -/
def PyNum.truthy : PyNum → Bool
  | .int n => n != 0
  | .float q => q != 0

/-- Python `int(x)` on a scalar: the identity on `int`, truncation toward
zero on `float` (`Int.tdiv` truncates toward zero, as Python does). -/
def pyIntOfScalar : PyNum → Int
  | .int n => n
  | .float q => q.num.tdiv q.den

/-- `Number(bool)`: Python `str(True)` has no `'.'`, so booleans become
the integers 1 and 0. -/
def numOfBool (b : Bool) : PyNum :=
  .int (if b then 1 else 0)

/-- `some k` when `n = 10 ^ k` (structural on the fuel, which starts at
`n` itself — ample, since each step divides by 10). -/
def pow10ExpAux : Nat → Nat → Option Nat
  | 0, _ => none
  | fuel + 1, n =>
    if n = 1 then some 0
    else if n % 10 = 0 ∧ n ≠ 0 then (pow10ExpAux fuel (n / 10)).map (· + 1)
    else none

/-- `some k` when `n = 10 ^ k`, else `none`. -/
def pow10Exp (n : Nat) : Option Nat := pow10ExpAux n n

/-- `some e` when the rational `q` is exactly `10 ^ e` for an integer `e`
(positive `e` when `q` is a whole power of ten, negative when its
reciprocal is), else `none`. -/
def ratPow10Exp (q : Rat) : Option Int :=
  if q.den = 1 then
    if 0 < q.num then (pow10Exp q.num.toNat).map (fun k => (k : Int)) else none
  else if q.num = 1 then (pow10Exp q.den).map (fun k => (-(k : Int)))
  else none

/-- Whether `str(value)` of a Python float of exact value `v` contains no
`'.'`: the value prints in bare exponent notation, i.e. `|v| = d * 10^e`
for a single decimal digit `1 ≤ d ≤ 9` with exponent `16 ≤ e` or
`e ≤ -5` (see the section note). -/
def floatStrDotless (v : Rat) : Bool :=
  (List.range 9).any (fun i =>
    match ratPow10Exp (|v| / ((i + 1 : Nat) : Rat)) with
    | some e => decide (16 ≤ e) || decide (e ≤ -5)
    | none => false)

/-- `Number.__init__` on a Python float result:
`int(value) if '.' not in str(value) else float(value)` — re-classified
to the truncation toward zero when the float prints without a dot, kept
float-represented otherwise. -/
def mkNumFloat (v : Rat) : PyNum :=
  if floatStrDotless v then .int (v.num.tdiv v.den) else .float v

/-- `Number.__add__`: `Number(self.value + other.value)`; `int + int` is an
`int` in Python (and `str(int)` never has a `'.'`), any float operand
gives a `float`, which `Number.__init__` re-classifies. -/
def numAdd : PyNum → PyNum → PyNum
  | .int a, .int b => .int (a + b)
  | a, b => mkNumFloat (a.toRat + b.toRat)

/-- `Number.__sub__`. -/
def numSub : PyNum → PyNum → PyNum
  | .int a, .int b => .int (a - b)
  | a, b => mkNumFloat (a.toRat - b.toRat)

/-- `Number.__mul__`. -/
def numMul : PyNum → PyNum → PyNum
  | .int a, .int b => .int (a * b)
  | a, b => mkNumFloat (a.toRat * b.toRat)

/-- Rational stand-in for Python float `**` with a rational-valued result.
Exact for integral exponents; a non-integral exponent would give an
irrational (or complex) value, which the rational model cannot carry — the
placeholder 0 is returned there and no theorem depends on it. -/
def ratPow (a e : Rat) : Rat :=
  if e.den = 1 then
    if 0 ≤ e.num then a ^ e.num.toNat else (a ^ (-e.num).toNat)⁻¹
  else 0

/-- `Number.__pow__`: `Number(self.value ** other.value)`.
`int ** int` with a non-negative exponent is an `int`; with a negative
exponent Python returns a `float` (or raises `ZeroDivisionError` on base
0).  With a float operand the result is a `float`; a negative base with a
non-integral exponent makes Python produce a `complex`, which
`Number.__init__` then feeds to `float(...)`, raising `TypeError`. -/
def numPow : PyNum → PyNum → Except PyErr PyNum
  | .int a, .int b =>
    if 0 ≤ b then .ok (.int (a ^ b.toNat))
    else if a = 0 then .error .zeroDivisionError
    else .ok (mkNumFloat (ratPow (a : Rat) (b : Rat)))
  | a, b =>
    if a.toRat = 0 ∧ b.toRat < 0 then .error .zeroDivisionError
    else if a.toRat < 0 ∧ b.toRat.den ≠ 1 then .error .typeError
    else .ok (mkNumFloat (ratPow a.toRat b.toRat))

/-- `Number.__truediv__`: `Number(self.value / other.value)`.  Python true
division always yields a `float` and raises `ZeroDivisionError` on a zero
divisor. -/
def numDiv (a b : PyNum) : Except PyErr PyNum :=
  if b.toRat = 0 then .error .zeroDivisionError
  else .ok (mkNumFloat (a.toRat / b.toRat))

/-- `Number.__lt__`: `Number(self.value < other.value)` — a boolean fed to
`Number`, hence the integer 0 or 1. -/
def numLt (a b : PyNum) : PyNum :=
  numOfBool (a.toRat < b.toRat)

/-- `Number.__le__`. -/
def numLe (a b : PyNum) : PyNum :=
  numOfBool (a.toRat ≤ b.toRat)

/-- `Number.__gt__`. -/
def numGt (a b : PyNum) : PyNum :=
  numOfBool (b.toRat < a.toRat)

/-- `Number.__ge__`. -/
def numGe (a b : PyNum) : PyNum :=
  numOfBool (b.toRat ≤ a.toRat)

/-- `Number.__eq__`: `Number(self.value == other.value)` (Python compares
`int` and `float` by value, as the rational view does). -/
def numIsEq (a b : PyNum) : PyNum :=
  numOfBool (a.toRat = b.toRat)

/-- `Number.__ne__`. -/
def numNe (a b : PyNum) : PyNum :=
  numOfBool (a.toRat ≠ b.toRat)

/-- `Number.anded_by`: `Number(int(self.value and other.value))`.  Python
`and` returns the right operand when the left is truthy, else the left
operand; `int(...)` truncates it. -/
def numAnd (a b : PyNum) : PyNum :=
  .int (pyIntOfScalar (if a.truthy then b else a))

/-- `Number.ored_by`: `Number(int(self.value or other.value))`. -/
def numOr (a b : PyNum) : PyNum :=
  .int (pyIntOfScalar (if a.truthy then a else b))

/-- `Number.notted_by`: `Number(1 if self.value == 0 else 0)`. -/
def numNot (a : PyNum) : PyNum :=
  .int (if a.toRat = 0 then 1 else 0)

/-- Lexicographic string comparison (`String.__lt__` etc. delegate to
Python `str` comparison; ASCII behaviour coincides with Lean's). -/
def strLtB (a b : String) : Bool :=
  decide (a < b)

/-! ## The object universe

Python's interpreter state is a single object graph: AST nodes, runtime
values, symbol tables and parameter dicts are all stored in the same
slots (`SymbolTable.symbols`, `node.params`, dict values).  The mutual
inductive below reflects that.  `Dyn` is a slot that can hold an AST node
or a runtime object — `visit_ExecuteBuiltInsNode` and
`visit_FunctionCallNode` overwrite `node.params` (a list of nodes) with
evaluated objects, so parameter lists are `List Dyn`.

Not modelled (no claim depends on them): `ObjectNode` class definitions,
`AccessNode` attribute access, `SliceNode`, and the `superclass` flag of
`visit` (which only `visit_AccessNode` ever sets). -/

mutual

/-- AST nodes (the classes of nodes.py that the claims exercise).
`num` carries the parsed payload of the `INT`/`FLOAT` token
(`visit_NumberNode` builds `Number(tok.value)`, classifying by the
presence of `'.'` in the literal — the tag mirrors that).  `binOp` and
`unaryOp` carry the operator `Token`, since `visit_BinOpNode` dispatches
on both its `token_type` and its `value` (for `and`/`or`/`not`). -/
inductive Node where
  | num (v : PyNum)
  | str (s : String)
  | listNode (elems : List Dyn)
  | varAccess (name : String)
  | varAssign (name : String) (value : Node)
  | binOp (l : Node) (op : Token) (r : Node)
  | unaryOp (op : Token) (operand : Node)
  | ret (e : Node)
  | ifNode (cases : List (List Dyn × List Dyn)) (elseCase : Option (List Dyn))
  | whileNode (cond : List Dyn) (body : List Dyn)
  | forNode (varName : String) (startV : Node) (endV : Node) (stepV : Node)
      (body : List Dyn)
  | funcDef (fn : FuncNode)
  | funcCall (name : String) (params : List Dyn)
  | builtin (name : String) (params : List Dyn)

/-- A `FunctionNode`: name, parameter names (the source stores parameter
tokens and reads `.value`), its `local_symbol_table`, and its body.
`ForNode.var_name` aliases `start_value` in the source; the model carries
the variable name and evaluates `startV` twice, as `visit_ForNode` does. -/
inductive FuncNode where
  | mk (name : String) (params : List String) (localTable : List (String × Obj))
      (body : List Dyn)

/-- A slot holding either an AST node or an evaluated runtime object. -/
inductive Dyn where
  | node (n : Node)
  | obj (o : Obj)

/-- Runtime objects: the value classes of nodes.py plus the plain Python
objects the interpreter returns and stores (`None`, the
`('print', text)` tuple, Python lists of results from `visit_IfNode`,
AST nodes leaked as values — `ReturnNode`s —, `FunctionNode`s,
`SymbolTable`s, and the `params` dict).  `plist` mirrors the `List`
class: `vals` is the index dict (insertion-ordered, like a Python dict)
and `cache` the `value` list; the source stores `item.value` payloads in
`value`, the model keeps the carrying objects (the projection is never
compared by any claim). -/
inductive Obj where
  | num (v : PyNum)
  | pstr (s : String)
  | plist (vals : List (Int × Obj)) (cache : List Obj)
  | pyNone
  | tup (tag : String) (text : String)
  | pyList (items : List Obj)
  | nodeObj (n : Node)
  | funcObj (fn : FuncNode)
  | table (t : List (String × Obj))
  | pdict (d : List (String × Obj))

end

/-- A symbol table's `symbols` dict (insertion-ordered association list;
the `parent` field of `SymbolTable` is always `None` in the source). -/
abbrev STable := List (String × Obj)

/-- The function name field. -/
def FuncNode.fname : FuncNode → String
  | .mk n _ _ _ => n

/-- The parameter names. -/
def FuncNode.fparams : FuncNode → List String
  | .mk _ p _ _ => p

/-- The `local_symbol_table`. -/
def FuncNode.localTable : FuncNode → STable
  | .mk _ _ t _ => t

/-- The body statement list. -/
def FuncNode.body : FuncNode → List Dyn
  | .mk _ _ _ b => b

/-- Replace the `local_symbol_table`. -/
def FuncNode.withTable : FuncNode → STable → FuncNode
  | .mk n p _ b, t => .mk n p t b

/-! ## Python dict primitives

Python dicts preserve insertion order; updating an existing key keeps its
position, a new key is appended, `del` removes the key.  Keys are unique;
`dictDel` removes every pair with the key, which on the unique-key dicts
the code builds is the single pair. -/

/-- `d[k]`, returning `none` for a `KeyError`. -/
def dictGet [BEq k] (d : List (k × a)) (key : k) : Option a :=
  (d.find? (fun p => p.1 == key)).map (·.2)

/-- `d[k] = v`. -/
def dictSet [BEq k] (d : List (k × a)) (key : k) (v : a) : List (k × a) :=
  if d.any (fun p => p.1 == key) then
    d.map (fun p => if p.1 == key then (p.1, v) else p)
  else d ++ [(key, v)]

/-- `del d[k]`, returning `none` for a `KeyError`. -/
def dictDel [BEq k] (d : List (k × a)) (key : k) : Option (List (k × a)) :=
  if d.any (fun p => p.1 == key) then
    some (d.filter (fun p => !(p.1 == key)))
  else none

/-- Python list slicing `l[i:]` with a possibly negative start. -/
def pySliceFrom (l : List α) (i : Int) : List α :=
  if i < 0 then l.drop (((l.length : Int) + i).toNat)
  else l.drop i.toNat

/-- Whether the object carries a `value` attribute (the three value
classes do; `None`, tuples, plain lists and dicts, symbol tables, AST
nodes and `FunctionNode`s do not). -/
def Obj.hasValueAttr : Obj → Bool
  | .num _ => true
  | .pstr _ => true
  | .plist _ _ => true
  | _ => false

/-! ## List built-ins (`visit_ExecuteBuiltInsNode`, nodes.py `List`)

`pop`, `append` and `extend` all finish by recomputing
`lst.value = [lst.vals[index].value for index, _ in enumerate(lst.vals.values())]`,
which indexes the dict at `0 .. len(vals)-1` and raises `KeyError` when
one of those keys is missing.  `rebuildCache` is that comprehension. -/

/-- One step of the rebuild comprehension: look up key `i` and demand a
`value` attribute on the stored item. -/
def cacheItem (vals : List (Int × Obj)) (i : Nat) : Except PyErr Obj :=
  match dictGet vals (i : Int) with
  | none => .error .keyError
  | some v => if v.hasValueAttr then .ok v else .error .attributeError

/-- The first `k` entries of the rebuild comprehension, in index order
(index 0 first, as the comprehension evaluates). -/
def buildCache (vals : List (Int × Obj)) : Nat → Except PyErr (List Obj)
  | 0 => .ok []
  | k + 1 =>
    match buildCache vals k with
    | .error e => .error e
    | .ok acc =>
      match cacheItem vals k with
      | .error e => .error e
      | .ok v => .ok (acc ++ [v])

/-- The final comprehension of each list built-in. -/
def rebuildCache (vals : List (Int × Obj)) : Except PyErr Obj :=
  (buildCache vals vals.length).map (.plist vals ·)

/-- The dict key a popped index denotes: `params[1].value` used as a dict
key.  Python's numeric keys identify `2.0` with `2`; a fractional float or
a string matches no integer key (`KeyError` surfaces at the `del`), and an
object without `value` raises `AttributeError`. -/
def popKey : Obj → Except PyErr Int
  | .num (.int n) => .ok n
  | .num (.float q) => if q.den = 1 then .ok q.num else .error .keyError
  | .pstr _ => .error .keyError
  | .plist _ _ => .error .keyError
  | _ => .error .attributeError

/-- `max(keys)` via `sorted(list(keys))[-1]`; `IndexError` on an empty
dict. -/
def maxKey (vals : List (Int × Obj)) : Except PyErr Int :=
  match vals with
  | [] => .error .indexError
  | (k, _) :: rest => .ok (rest.foldl (fun m p => max m p.1) k)

/-- The `pop` branch of `visit_ExecuteBuiltInsNode`:
`del vals[idx]`, then re-key the insertion-order slice `vals[idx:]` down
by one, then delete key `len-1` when the popped index was not the last,
then rebuild the linear cache. -/
def pyPop (vals : List (Int × Obj)) (idxObj : Obj) : Except PyErr Obj := do
  let idx ← popKey idxObj
  let toDel : Int := (vals.length : Int) - 1
  let delEnd := idx ≠ toDel
  match dictDel vals idx with
  | none => .error .keyError
  | some vals1 =>
    let pairs := pySliceFrom vals1 idx
    let vals2 := pairs.foldl (fun d p => dictSet d (p.1 - 1) p.2) vals1
    match (if delEnd then dictDel vals2 toDel else some vals2) with
    | none => .error .keyError
    | some vals3 => rebuildCache vals3

/-- The `append` branch: insert at key `max(keys) + 1`, then rebuild. -/
def pyAppend (vals : List (Int × Obj)) (item : Obj) : Except PyErr Obj := do
  let m ← maxKey vals
  rebuildCache (dictSet vals (m + 1) item)

/-- The `extend` branch: append each value of the second list after
`max(keys)` of the first, then rebuild. -/
def pyExtend (vals : List (Int × Obj)) (other : List Obj) : Except PyErr Obj := do
  let m ← maxKey vals
  let step := fun (acc : Int × List (Int × Obj)) (v : Obj) =>
    (acc.1 + 1, dictSet acc.2 (acc.1 + 1) v)
  rebuildCache (other.foldl step (m, vals)).2

/-! ## Interpreter-level value operations -/

/-- `obj.value == 1`, as the condition checks of `visit_IfNode` and
`visit_list` perform it: `AttributeError` without a `value` attribute;
comparing a `str` or a Python list with `1` is `False`. -/
def valueEq1 : Obj → Except PyErr Bool
  | .num v => .ok (v.toRat = 1)
  | .pstr _ => .ok false
  | .plist _ _ => .ok false
  | _ => .error .attributeError

/-- `obj.value == 0` (the `visit_WhileNode` exit test). -/
def valueEq0 : Obj → Except PyErr Bool
  | .num v => .ok (v.toRat = 0)
  | .pstr _ => .ok false
  | .plist _ _ => .ok false
  | _ => .error .attributeError

/-- `obj.value > 0` (the `visit_ForNode` step test): `AttributeError`
without a `value` attribute, `TypeError` comparing a `str` or list with
`0`. -/
def valueGt0 : Obj → Except PyErr Bool
  | .num v => .ok (0 < v.toRat)
  | .pstr _ => .error .typeError
  | .plist _ _ => .error .typeError
  | _ => .error .attributeError

/-- `isinstance(x, int)` on `obj.value`, used by the string-repetition
branch of `visit_BinOpNode`; `AttributeError` without a `value`
attribute (Python `bool` is also `int`, but no `bool` ever reaches this
slot — comparison results are already `Number`s). -/
def valueIsInt : Obj → Except PyErr Bool
  | .num (.int _) => .ok true
  | .num (.float _) => .ok false
  | .pstr _ => .ok false
  | .plist _ _ => .ok false
  | _ => .error .attributeError

/-- `isinstance(x, ReturnNode)` on a runtime object. -/
def Obj.isReturnObj : Obj → Bool
  | .nodeObj (.ret _) => true
  | _ => false

/-- `isinstance(line, ReturnNode)` on a statement slot (an AST
`ReturnNode`, or a `ReturnNode` object stored as a value). -/
def Dyn.isReturnStmt : Dyn → Bool
  | .node (.ret _) => true
  | .obj (.nodeObj (.ret _)) => true
  | _ => false

/-- The Python object a slot denotes (`return expr` returns the slot's
object itself). -/
def Dyn.toObj : Dyn → Obj
  | .node n => .nodeObj n
  | .obj o => o

/-- Whether the object is a `SymbolTable` instance. -/
def Obj.isTable : Obj → Bool
  | .table _ => true
  | _ => false

/-- Python dict equality on a `List.vals` dict, as Python computes it:
lengths equal and every key of the left dict present in the right with
`==`-equal value — but the stored values are `Number`/`String`/`List`
instances whose `__eq__` returns a `Number` object, and a `Number` object
is always truthy, so the per-value comparison always passes and dict
equality degenerates to equality of key sets. -/
def pyDictValsEq (a b : List (Int × Obj)) : Bool :=
  a.length == b.length && (a.map Prod.fst).all (fun k => b.any (fun p => p.1 == k))

/-- Placeholder rendering of a float payload (Python's shortest-repr
float formatting is not reproduced; no theorem evaluates it). -/
def ratRepr (q : Rat) : String :=
  toString q

/-- Python `repr` of a raw payload stored in a list's `value` cache
(numbers bare, strings in quotes, lists bracketed), depth-limited by
fuel. -/
def rawRepr : Nat → Obj → String
  | _, .num (.int n) => toString n
  | _, .num (.float q) => ratRepr q
  | _, .pstr s => "'" ++ s ++ "'"
  | 0, .plist _ _ => "[...]"
  | f + 1, .plist _ cache =>
    "[" ++ String.intercalate ", " (cache.map (rawRepr f)) ++ "]"
  | _, _ => "?"

/-- `str(p.value)` for one `print` argument: the bare string for a
`String`, the numeral for a `Number`, the bracketed raw list for a
`List`; `AttributeError` without a `value` attribute. -/
def printPiece (fuel : Nat) : Obj → Except PyErr String
  | .num (.int n) => .ok (toString n)
  | .num (.float q) => .ok (ratRepr q)
  | .pstr s => .ok s
  | .plist _ cache =>
    .ok ("[" ++ String.intercalate ", " (cache.map (rawRepr fuel)) ++ "]")
  | _ => .error .attributeError

/-- `visit_BinOpNode` after both children are evaluated: dispatch on the
runtime types of the operands, then on the operator token.  Falling
through an inner operator chain returns Python `None`; the final `else`
of the type dispatch returns `Number(0)`. -/
def binOpValues (op : Token) (l r : Obj) : Except PyErr Obj :=
  match l, r with
  | .num a, .num b =>
    if op.type == .PLUS then .ok (.num (numAdd a b))
    else if op.type == .MINUS then .ok (.num (numSub a b))
    else if op.type == .MULT then .ok (.num (numMul a b))
    else if op.type == .DIV then (numDiv a b).map (.num ·)
    else if op.type == .EXP then (numPow a b).map (.num ·)
    else if op.type == .N_EQ then .ok (.num (numNe a b))
    else if op.type == .IS_EQ then .ok (.num (numIsEq a b))
    else if op.type == .LTE then .ok (.num (numLe a b))
    else if op.type == .GTE then .ok (.num (numGe a b))
    else if op.type == .LT then .ok (.num (numLt a b))
    else if op.type == .GT then .ok (.num (numGt a b))
    else if op.value == "and" then .ok (.num (numAnd a b))
    else if op.value == "or" then .ok (.num (numOr a b))
    else .ok .pyNone
  | .pstr a, .pstr b =>
    if op.type == .PLUS then .ok (.pstr (a ++ b))
    else if op.type == .MINUS then
      -- `String(left_node) - String(right_node)`: `String.__init__` already
      -- raises `TypeError` enumerating a `String` instance, and
      -- `String.__sub__` would apply `-` to `str` values, equally a
      -- `TypeError`; either way the operation raises `TypeError`.
      .error .typeError
    else if op.type == .N_EQ then .ok (.num (numOfBool (a ≠ b)))
    else if op.type == .IS_EQ then .ok (.num (numOfBool (a = b)))
    else if op.type == .LTE then .ok (.num (numOfBool (!strLtB b a)))
    else if op.type == .GTE then .ok (.num (numOfBool (!strLtB a b)))
    else if op.type == .LT then .ok (.num (numOfBool (strLtB a b)))
    else if op.type == .GT then .ok (.num (numOfBool (strLtB b a)))
    else .ok .pyNone
  | .plist va _, .plist vb _ =>
    -- the String-by-int branch's guard evaluates `right_node.value` /
    -- `left_node.value`, both present on `List`, and is false here
    if op.type == .N_EQ then .ok (.num (numOfBool (!pyDictValsEq va vb)))
    else if op.type == .IS_EQ then .ok (.num (numOfBool (pyDictValsEq va vb)))
    else .ok .pyNone
  | .pstr a, rv => do
    -- `type(left).__name__ == 'String' and isinstance(right_node.value, int)`
    let isInt ← valueIsInt rv
    if isInt then
      if op.type == .MULT then
        match rv with
        | .num (.int n) => .ok (.pstr (String.join (List.replicate n.toNat a)))
        | _ => .error .typeError
      else .ok .pyNone
    else .ok (.num (.int 0))
  | lv, .pstr _ => do
    -- right operand is the `String`: the branch still computes
    -- `left_node.value * Number(right_node).value`, and
    -- `Number(String-instance)` feeds `int(str(...))` a quoted repr,
    -- raising `ValueError`
    let isInt ← valueIsInt lv
    if isInt then
      if op.type == .MULT then .error .valueError
      else .ok .pyNone
    else .ok (.num (.int 0))
  | _, _ => .ok (.num (.int 0))

/-- `visit_UnaryOpNode` after the operand is evaluated: `-x` is
`x * Number(-1)` (a `TypeError` on non-`Number`s, which define no
`__mul__`), `+x` returns the operand unchanged, `not` calls
`notted_by` (`AttributeError` on non-`Number`s); any other operator
token falls off the function, returning `None`. -/
def unaryOpValues (op : Token) (v : Obj) : Except PyErr Obj :=
  if op.type == .MINUS then
    match v with
    | .num a => .ok (.num (numMul a (.int (-1))))
    | _ => .error .typeError
  else if op.type == .PLUS then .ok v
  else if op.value == "not" then
    match v with
    | .num a => .ok (.num (numNot a))
    | _ => .error .attributeError
  else .ok .pyNone

/-- `old + Number(step)` in `visit_ForNode`'s increment — `Number.__add__`
when the loop variable still holds a `Number`, `String.__add__` (then
`str + int` → `TypeError`) when it holds a `String`, `TypeError`
otherwise. -/
def objAdd : Obj → Obj → Except PyErr Obj
  | .num a, .num b => .ok (.num (numAdd a b))
  | .num _, .pstr _ => .error .typeError
  | .num _, .plist _ _ => .error .typeError
  | .num _, _ => .error .attributeError
  | .pstr a, .pstr b => .ok (.pstr (a ++ b))
  | .pstr _, .num _ => .error .typeError
  | .pstr _, .plist _ _ => .error .typeError
  | .pstr _, _ => .error .attributeError
  | _, _ => .error .typeError

/-- `check < end` in `visit_ForNode` (`Number.__lt__` / `String.__lt__`;
mixed operand types raise `TypeError`, missing `value` attributes
`AttributeError`). -/
def objLt : Obj → Obj → Except PyErr Obj
  | .num a, .num b => .ok (.num (numLt a b))
  | .num _, .pstr _ => .error .typeError
  | .num _, .plist _ _ => .error .typeError
  | .num _, _ => .error .attributeError
  | .pstr a, .pstr b => .ok (.num (numOfBool (strLtB a b)))
  | .pstr _, .num _ => .error .typeError
  | .pstr _, .plist _ _ => .error .typeError
  | .pstr _, _ => .error .attributeError
  | _, _ => .error .typeError

/-- `check > end` in `visit_ForNode`. -/
def objGt : Obj → Obj → Except PyErr Obj
  | .num a, .num b => .ok (.num (numGt a b))
  | .num _, .pstr _ => .error .typeError
  | .num _, .plist _ _ => .error .typeError
  | .num _, _ => .error .attributeError
  | .pstr a, .pstr b => .ok (.num (numOfBool (strLtB b a)))
  | .pstr _, .num _ => .error .typeError
  | .pstr _, .plist _ _ => .error .typeError
  | .pstr _, _ => .error .attributeError
  | _, _ => .error .typeError

/-- `bool(cmp.value)` on a comparison result (always a 0/1 `Number`
here). -/
def cmpTruthy : Obj → Except PyErr Bool
  | .num v => .ok v.truthy
  | .pstr s => .ok (s != "")
  | .plist _ c => .ok (!c.isEmpty)
  | _ => .error .attributeError

/-! ## The interpreter environment

`visit` receives the current symbol table; lookups in
`visit_VarAccessNode` compare it with the interpreter's root table by
identity (`symbol_table != self.symbol_table`).  `Env.top` is evaluation
with the root table itself, `Env.inFunc` evaluation inside a function
activation whose local table is distinct from the root. -/

inductive Env where
  | top (root : STable)
  | inFunc (locals : STable) (root : STable)
  deriving Inhabited

/-- The current table. -/
def Env.cur : Env → STable
  | .top r => r
  | .inFunc l _ => l

/-- The root table. -/
def Env.root : Env → STable
  | .top r => r
  | .inFunc _ r => r

/-- Write back the current table (writing the root when the current table
*is* the root). -/
def Env.setCur : Env → STable → Env
  | .top _, t => .top t
  | .inFunc _ r, t => .inFunc t r

/-- Whether the current table is the interpreter's root table. -/
def Env.isRoot : Env → Bool
  | .top _ => true
  | .inFunc _ _ => false

/-- The root table of the interpreter started by `main.py`:
`true ↦ Number(1)`, `false ↦ Number(0)`, `null ↦ Number(0)`. -/
def initialRoot : STable :=
  [("true", .num (.int 1)), ("false", .num (.int 0)), ("null", .num (.int 0))]

/-- `visit_VarAccessNode`: try the current table; on a `KeyError`, use the
`params` sub-dict when the current table has one (a further miss
re-raises `KeyError`); otherwise fall back to the root table when the
current table is not the root; with the root table itself the source
reaches `return res` with `res` unbound (`UnboundLocalError`). -/
def lookupVar (env : Env) (name : String) : Except PyErr Obj :=
  match dictGet env.cur name with
  | some v => .ok v
  | none =>
    match dictGet env.cur "params" with
    | some (.pdict d) =>
      match dictGet d name with
      | some v => .ok v
      | none => .error .keyError
    | some (.table t) =>
      match dictGet t name with
      | some v => .ok v
      | none => .error .keyError
    | some _ => .error .typeError
    | none =>
      if env.isRoot then .error .unboundLocal
      else
        match dictGet env.root name with
        | some v => .ok v
        | none => .error .keyError

/-- Lines 210–213 of `visit_FunctionCallNode`: bind one argument when the
local table has an `inst` entry —
`func.local_symbol_table["inst"]["params"][pname] = param`, then delete a
shadowing direct entry. -/
def instBindParam (lt : STable) (pname : String) (obj : Obj) : Except PyErr STable :=
  match dictGet lt "inst" with
  | some (.table t) =>
    (match dictGet t "params" with
     | some (.pdict d) =>
       let t1 := dictSet t "params" (.pdict (dictSet d pname obj))
       let lt1 := dictSet lt "inst" (.table t1)
       .ok (if pname ≠ "inst" ∧ (dictGet lt1 pname).isSome then
              (dictDel lt1 pname).getD lt1
            else lt1)
     | some _ => .error .typeError
     | none => .error .keyError)
  | some _ => .error .typeError
  | none => .error .keyError

/-- Lines 226–235 of `visit_FunctionCallNode`:
`if 'inst' in lt: del lt["inst"]["params"]`. -/
def instCleanup (lt : STable) : Except PyErr STable :=
  match dictGet lt "inst" with
  | none => .ok lt
  | some (.table t) =>
    match dictDel t "params" with
    | some t1 => .ok (dictSet lt "inst" (.table t1))
    | none => .error .keyError
  | some _ => .error .typeError

/-- The non-recursive part of `visit_ExecuteBuiltInsNode`: dispatch on the
built-in's name once the arguments are evaluated.  `input`/`input_int`
perform interactive IO, outside the model; built-ins applied to receivers
other than `List` values are modelled by the `AttributeError` their
`.vals` access raises (a `String` receiver, which also has `.vals`, is
outside the modelled fragment of `pop`/`append`). -/
def evalBuiltinCall (fuel : Nat) (name : String) (objs : List Obj) : Except PyErr Obj :=
  match name with
  | "print" =>
    match objs.mapM (printPiece fuel) with
    | .ok pieces => .ok (.tup "print" (String.intercalate "\n" pieces))
    | .error e => .error e
  | "pop" =>
    match objs with
    | lst :: idx :: _ =>
      match lst with
      | .plist vals _ => pyPop vals idx
      | _ => .error .attributeError
    | _ => .error .indexError
  | "append" =>
    match objs with
    | lst :: item :: _ =>
      match lst with
      | .plist vals _ => pyAppend vals item
      | _ => .error .attributeError
    | _ => .error .indexError
  | "extend" =>
    match objs with
    | lst :: second :: _ =>
      match lst, second with
      | .plist vals _, .plist vb _ => pyExtend vals (vb.map Prod.snd)
      | .plist vals _, .pstr s =>
        pyExtend vals (s.data.map (fun c => .pstr (String.mk [c])))
      | .plist _ _, _ => .error .attributeError
      | _, _ => .error .attributeError
    | _ => .error .indexError
  | "is_number" =>
    match objs with
    | v :: _ =>
      .ok (.num (.int (match v with
        | .num _ => 1
        | .nodeObj (.num _) => 1
        | _ => 0)))
    | _ => .error .indexError
  | "is_string" =>
    match objs with
    | v :: _ =>
      .ok (.num (.int (match v with
        | .pstr _ => 1
        | .nodeObj (.str _) => 1
        | _ => 0)))
    | _ => .error .indexError
  | "is_list" =>
    match objs with
    | v :: _ =>
      .ok (.num (.int (match v with
        | .plist _ _ => 1
        | .nodeObj (.listNode _) => 1
        | _ => 0)))
    | _ => .error .indexError
  | "input" => .error .ioUnmodelled
  | "input_int" => .error .ioUnmodelled
  | _ => .error .attributeError

/-- Replace the root table (writes through to the current table when the
current table is the root, as Python's aliasing does). -/
def Env.setRoot : Env → STable → Env
  | .top _, r => .top r
  | .inFunc l _, r => .inFunc l r

/-- The argument-binding loop of `visit_FunctionCallNode` (lines
209–215): with an `inst` entry in the local table, bind under
`inst.params` and drop shadowing direct entries; otherwise bind directly
in the local table.  The `zip` truncates at the shorter list. -/
def bindParams (lt : STable) : List (Obj × String) → Except PyErr STable
  | [] => .ok lt
  | (obj, pname) :: rest =>
    if (dictGet lt "inst").isSome then
      match instBindParam lt pname obj with
      | .error e => .error e
      | .ok lt1 => bindParams lt1 rest
    else bindParams (dictSet lt pname obj) rest

/-!  The evaluator.  Each function consumes one unit of fuel per call;
`none` means the fuel ran out (the source diverges or was cut short).
Each returns the visit result together with the updated AST slot —
`visit_ExecuteBuiltInsNode`, `visit_FunctionCallNode` and
`visit_ListNode` overwrite fields of their nodes — and the updated
environment.  On a raised exception the partially mutated state is
discarded (no theorem below inspects state after an exception).
The mutated local table and body of a called function are not written
back to the stored `FunctionNode` (the claims quantify over single
calls). -/
mutual

/-- `Interpreter.visit` on an AST node (dispatch by node class). -/
def evalNode : Nat → Node → Env → Option (Except PyErr (Obj × Node × Env))
  | 0, _, _ => none
  | _ + 1, .num v, env => some (.ok (.num v, .num v, env))
  | _ + 1, .str s, env => some (.ok (.pstr s, .str s, env))
  | fuel + 1, .listNode elems, env =>
    match evalSeq fuel elems env with
    | none => none
    | some (.error e) => some (.error e)
    | some (.ok (objs, _, env1)) =>
      let node1 := Node.listNode (objs.map Dyn.obj)
      if objs.all Obj.hasValueAttr then
        some (.ok (.plist ((objs.enum).map (fun p => ((p.1 : Int), p.2))) objs,
          node1, env1))
      else some (.error .attributeError)
  | _ + 1, .varAccess name, env =>
    match lookupVar env name with
    | .ok v => some (.ok (v, .varAccess name, env))
    | .error e => some (.error e)
  | fuel + 1, .varAssign name value, env =>
    match evalNode fuel value env with
    | none => none
    | some (.error e) => some (.error e)
    | some (.ok (v, value1, env1)) =>
      some (.ok (.pyNone, .varAssign name value1,
        env1.setCur (dictSet env1.cur name v)))
  | fuel + 1, .binOp l op r, env =>
    match evalNode fuel l env with
    | none => none
    | some (.error e) => some (.error e)
    | some (.ok (lv, l1, env1)) =>
      match evalNode fuel r env1 with
      | none => none
      | some (.error e) => some (.error e)
      | some (.ok (rv, r1, env2)) =>
        match binOpValues op lv rv with
        | .ok v => some (.ok (v, .binOp l1 op r1, env2))
        | .error e => some (.error e)
  | fuel + 1, .unaryOp op n, env =>
    match evalNode fuel n env with
    | none => none
    | some (.error e) => some (.error e)
    | some (.ok (v, n1, env1)) =>
      match unaryOpValues op v with
      | .ok r => some (.ok (r, .unaryOp op n1, env1))
      | .error e => some (.error e)
  | fuel + 1, .ret e, env =>
    match evalNode fuel e env with
    | none => none
    | some (.error er) => some (.error er)
    | some (.ok (v, e1, env1)) => some (.ok (v, .ret e1, env1))
  | fuel + 1, .ifNode cases elseCase, env =>
    match evalIfCases fuel cases env with
    | none => none
    | some (.error e) => some (.error e)
    | some (.ok (some r, cases1, env1)) =>
      some (.ok (r, .ifNode cases1 elseCase, env1))
    | some (.ok (none, cases1, env1)) =>
      match elseCase with
      | none => some (.ok (.pyNone, .ifNode cases1 none, env1))
      | some es =>
        -- `if node.else_case:` — an empty block list is falsy
        if es.isEmpty then some (.ok (.pyNone, .ifNode cases1 (some es), env1))
        else
          match evalBlockCollect fuel es env1 with
          | none => none
          | some (.error e) => some (.error e)
          | some (.ok (r, es1, env2)) =>
            some (.ok (r, .ifNode cases1 (some es1), env2))
  | fuel + 1, .whileNode cond body, env =>
    match evalVisitList fuel cond env with
    | none => none
    | some (.error e) => some (.error e)
    | some (.ok (c, cond1, env1)) =>
      match valueEq0 c with
      | .error e => some (.error e)
      | .ok true => some (.ok (.pyNone, .whileNode cond1 body, env1))
      | .ok false =>
        match evalLoopBody fuel body env1 with
        | none => none
        | some (.error e) => some (.error e)
        | some (.ok (some r, body1, env2)) =>
          some (.ok (r, .whileNode cond1 body1, env2))
        | some (.ok (none, body1, env2)) =>
          evalNode fuel (.whileNode cond1 body1) env2
  | fuel + 1, .forNode vn startV endV stepV body, env =>
    match evalNode fuel startV env with
    | none => none
    | some (.error e) => some (.error e)
    | some (.ok (v0, startV1, env1)) =>
      let env2 := env1.setCur (dictSet env1.cur vn v0)
      match evalNode fuel endV env2 with
      | none => none
      | some (.error e) => some (.error e)
      | some (.ok (endO, endV1, env3)) =>
        match evalNode fuel stepV env3 with
        | none => none
        | some (.error e) => some (.error e)
        | some (.ok (stepO, stepV1, env4)) =>
          match evalNode fuel startV1 env4 with
          | none => none
          | some (.error e) => some (.error e)
          | some (.ok (check0, startV2, env5)) =>
            match valueGt0 stepO with
            | .error e => some (.error e)
            | .ok stepPos =>
              match evalForLoop fuel vn check0 endO stepO stepPos body env5 with
              | none => none
              | some (.error e) => some (.error e)
              | some (.ok (r, body1, env6)) =>
                some (.ok (r, .forNode vn startV2 endV1 stepV1 body1, env6))
  | _ + 1, .funcDef fn, env =>
    some (.ok (.pyNone, .funcDef fn,
      env.setCur (dictSet env.cur fn.fname (.funcObj fn))))
  | fuel + 1, .funcCall name params, env => evalFuncCall fuel name params env
  | fuel + 1, .builtin name params, env =>
    match evalSeq fuel params env with
    | none => none
    | some (.error e) => some (.error e)
    | some (.ok (objs, _, env1)) =>
      let node1 := Node.builtin name (objs.map Dyn.obj)
      match evalBuiltinCall fuel name objs with
      | .ok r => some (.ok (r, node1, env1))
      | .error e => some (.error e)

/-- `Interpreter.visit` on an arbitrary slot: nodes dispatch to their
visitor; runtime objects dispatch by class name — Python lists have the
`visit_list` visitor, leaked AST nodes their node visitor,
`FunctionNode`s `visit_FunctionNode`; `Number`, `String`, `List`,
`NoneType`, `tuple`, `SymbolTable` and `dict` have no visitor, raising
the interpreter's no-visit exception. -/
def evalDyn : Nat → Dyn → Env → Option (Except PyErr (Obj × Dyn × Env))
  | 0, _, _ => none
  | fuel + 1, .node n, env =>
    match evalNode fuel n env with
    | none => none
    | some (.error e) => some (.error e)
    | some (.ok (r, n1, env1)) => some (.ok (r, .node n1, env1))
  | fuel + 1, .obj o, env =>
    match o with
    | .nodeObj n =>
      match evalNode fuel n env with
      | none => none
      | some (.error e) => some (.error e)
      | some (.ok (r, n1, env1)) => some (.ok (r, .obj (.nodeObj n1), env1))
    | .funcObj fn =>
      some (.ok (.pyNone, .obj (.funcObj fn),
        env.setCur (dictSet env.cur fn.fname (.funcObj fn))))
    | .pyList items =>
      match evalVisitList fuel (items.map Dyn.obj) env with
      | none => none
      | some (.error e) => some (.error e)
      | some (.ok (r, items1, env1)) =>
        some (.ok (r, .obj (.pyList (items1.map Dyn.toObj)), env1))
    | _ => some (.error .noVisitMethod)

/-- Left-to-right evaluation of a slot list, collecting the results (the
parameter comprehensions of `visit_ExecuteBuiltInsNode`,
`visit_FunctionCallNode` and `visit_ListNode`, and the condition loops of
`visit_IfNode` and `visit_list`). -/
def evalSeq : Nat → List Dyn → Env → Option (Except PyErr (List Obj × List Dyn × Env))
  | 0, _, _ => none
  | _ + 1, [], env => some (.ok ([], [], env))
  | fuel + 1, d :: ds, env =>
    match evalDyn fuel d env with
    | none => none
    | some (.error e) => some (.error e)
    | some (.ok (v, d1, env1)) =>
      match evalSeq fuel ds env1 with
      | none => none
      | some (.error e) => some (.error e)
      | some (.ok (vs, ds1, env2)) => some (.ok (v :: vs, d1 :: ds1, env2))

/-- `Interpreter.visit_list`: visit every element, then return the root
binding of `"true"` when every result has `value == 1`, else the root
binding of `"false"`. -/
def evalVisitList : Nat → List Dyn → Env → Option (Except PyErr (Obj × List Dyn × Env))
  | 0, _, _ => none
  | fuel + 1, ds, env =>
    match evalSeq fuel ds env with
    | none => none
    | some (.error e) => some (.error e)
    | some (.ok (vs, ds1, env1)) =>
      match vs.mapM valueEq1 with
      | .error e => some (.error e)
      | .ok flags =>
        match dictGet env1.root (if flags.all id then "true" else "false") with
        | some v => some (.ok (v, ds1, env1))
        | none => some (.error .keyError)

/-- The case loop of `visit_IfNode`: evaluate all conditions of a case,
check them all against 1, run the first passing body; `none` when no case
passed. -/
def evalIfCases : Nat → List (List Dyn × List Dyn) → Env →
    Option (Except PyErr (Option Obj × List (List Dyn × List Dyn) × Env))
  | 0, _, _ => none
  | _ + 1, [], env => some (.ok (none, [], env))
  | fuel + 1, (conds, body) :: rest, env =>
    match evalSeq fuel conds env with
    | none => none
    | some (.error e) => some (.error e)
    | some (.ok (vs, conds1, env1)) =>
      match vs.mapM valueEq1 with
      | .error e => some (.error e)
      | .ok flags =>
        if flags.all id then
          match evalBlockCollect fuel body env1 with
          | none => none
          | some (.error e) => some (.error e)
          | some (.ok (r, body1, env2)) =>
            some (.ok (some r, (conds1, body1) :: rest, env2))
        else
          match evalIfCases fuel rest env1 with
          | none => none
          | some (.error e) => some (.error e)
          | some (.ok (r?, rest1, env2)) =>
            some (.ok (r?, (conds1, body) :: rest1, env2))

/-- The block loop of `visit_IfNode` (also used for the else block): a
`ReturnNode` statement is returned as-is without visiting it; every other
statement is visited and its result collected; the collected results form
the Python list the if returns.  A `Return` *result* of a visited
statement is collected like any other value — `visit_IfNode` has no check
on `res`. -/
def evalBlockCollect : Nat → List Dyn → Env → Option (Except PyErr (Obj × List Dyn × Env))
  | 0, _, _ => none
  | _ + 1, [], env => some (.ok (.pyList [], [], env))
  | fuel + 1, l :: ls, env =>
    if l.isReturnStmt then some (.ok (l.toObj, l :: ls, env))
    else
      match evalDyn fuel l env with
      | none => none
      | some (.error e) => some (.error e)
      | some (.ok (r, l1, env1)) =>
        match evalBlockCollect fuel ls env1 with
        | none => none
        | some (.error e) => some (.error e)
        | some (.ok (rest, ls1, env2)) =>
          match rest with
          | .pyList rs => some (.ok (.pyList (r :: rs), l1 :: ls1, env2))
          | other => some (.ok (other, l1 :: ls1, env2))

/-- The body loop of `visit_WhileNode` / `visit_ForNode`: a `ReturnNode`
statement, or a statement whose *result* is a `ReturnNode`, terminates
the loop and is propagated (`some`); otherwise the loop body runs to the
end (`none`). -/
def evalLoopBody : Nat → List Dyn → Env → Option (Except PyErr (Option Obj × List Dyn × Env))
  | 0, _, _ => none
  | _ + 1, [], env => some (.ok (none, [], env))
  | fuel + 1, l :: ls, env =>
    if l.isReturnStmt then some (.ok (some l.toObj, l :: ls, env))
    else
      match evalDyn fuel l env with
      | none => none
      | some (.error e) => some (.error e)
      | some (.ok (r, l1, env1)) =>
        if r.isReturnObj then some (.ok (some r, l1 :: ls, env1))
        else
          match evalLoopBody fuel ls env1 with
          | none => none
          | some (.error e) => some (.error e)
          | some (.ok (r?, ls1, env2)) => some (.ok (r?, l1 :: ls1, env2))

/-- The iteration loop of `visit_ForNode`: predicate `check < end` for a
positive step, `check > end` otherwise; after a completed body iteration
the loop variable and the shadow `check` are both incremented by the
step. -/
def evalForLoop : Nat → String → Obj → Obj → Obj → Bool → List Dyn → Env →
    Option (Except PyErr (Obj × List Dyn × Env))
  | 0, _, _, _, _, _, _, _ => none
  | fuel + 1, vn, check, endO, stepO, stepPos, body, env =>
    match (if stepPos then objLt check endO else objGt check endO) with
    | .error e => some (.error e)
    | .ok cmp =>
      match cmpTruthy cmp with
      | .error e => some (.error e)
      | .ok false => some (.ok (.pyNone, body, env))
      | .ok true =>
        match evalLoopBody fuel body env with
        | none => none
        | some (.error e) => some (.error e)
        | some (.ok (some r, body1, env1)) => some (.ok (r, body1, env1))
        | some (.ok (none, body1, env1)) =>
          match dictGet env1.cur vn with
          | none => some (.error .keyError)
          | some old =>
            match stepO with
            | .num sv =>
              match objAdd old (.num sv) with
              | .error e => some (.error e)
              | .ok newv =>
                match objAdd check (.num sv) with
                | .error e => some (.error e)
                | .ok check1 =>
                  evalForLoop fuel vn check1 endO (.num sv) stepPos body1
                    (env1.setCur (dictSet env1.cur vn newv))
            | _ => some (.error .valueError)

/-- The body loop of `visit_FunctionCallNode` (lines 216–235): each line
is visited in the function's local environment, retrying once in the
caller's environment on a `KeyError`; a `ReturnNode` line returns its
evaluated value; a `ReturnNode` *result* is visited (evaluating the
leaked node) after an `inst` cleanup; falling off the body performs the
`inst` cleanup and yields no explicit return value. -/
def evalFuncBody : Nat → List Dyn → STable → Env →
    Option (Except PyErr (Option Obj × STable × Env))
  | 0, _, _, _ => none
  | _ + 1, [], lt, caller =>
    match instCleanup lt with
    | .error e => some (.error e)
    | .ok lt1 => some (.ok (none, lt1, caller))
  | fuel + 1, l :: ls, lt, caller =>
    match evalDyn fuel l (.inFunc lt caller.root) with
    | none => none
    | some (.error .keyError) =>
      match evalDyn fuel l caller with
      | none => none
      | some (.error e) => some (.error e)
      | some (.ok (r, _, callerA)) => evalFuncBodyStep fuel l r ls lt callerA
    | some (.error e) => some (.error e)
    | some (.ok (r, _, envA)) =>
      evalFuncBodyStep fuel l r ls envA.cur (caller.setRoot envA.root)

/-- One statement's aftermath in the function-body loop (the
`isinstance(line, ReturnNode)` / `isinstance(result, ReturnNode)`
checks). -/
def evalFuncBodyStep : Nat → Dyn → Obj → List Dyn → STable → Env →
    Option (Except PyErr (Option Obj × STable × Env))
  | 0, _, _, _, _, _ => none
  | fuel + 1, l, r, ls, lt, caller =>
    if l.isReturnStmt then some (.ok (some r, lt, caller))
    else if r.isReturnObj then
      match evalDyn fuel (.obj r) (.inFunc lt caller.root) with
      | none => none
      | some (.error e) => some (.error e)
      | some (.ok (r2, _, envB)) =>
        match instCleanup envB.cur with
        | .error e => some (.error e)
        | .ok lt3 =>
          let _ := lt3
          some (.ok (some r2, lt3, caller.setRoot envB.root))
    else evalFuncBody fuel ls lt caller

/-- `visit_FunctionCallNode` (the `superclass` flag is only ever set by
`visit_AccessNode`, outside the modelled fragment, so the `super` lookups
are not taken). -/
def evalFuncCall : Nat → String → List Dyn → Env →
    Option (Except PyErr (Obj × Node × Env))
  | 0, _, _, _ => none
  | fuel + 1, name, params, env =>
    match dictGet env.cur name with
    | none => some (.error .keyError)
    | some res =>
      match res with
      | .tup _ _ =>
        -- isinstance(res, tuple): the instantiation path; on the only tuple
        -- values constructible in the modelled fragment (print records),
        -- `...[0].special_methods` raises AttributeError immediately.
        some (.error .attributeError)
      | _ =>
        match evalSeq fuel params env with
        | none => none
        | some (.error e) => some (.error e)
        | some (.ok (objs, _, env1)) =>
          match dictGet env1.cur name with
          | none => some (.error .keyError)
          | some fnObj =>
            match fnObj with
            | .funcObj fn =>
              let objs2 :=
                if fn.fparams.contains "inst" then Obj.table env1.cur :: objs
                else objs
              let node2 := Node.funcCall name (objs2.map Dyn.obj)
              let lt0 := fn.localTable
              let lt1 :=
                match dictGet lt0 "inst" with
                | some v =>
                  if v.isTable then lt0
                  else dictSet lt0 "inst"
                    (.table (dictSet env1.cur "params" (.pdict [])))
                | none => lt0
              match bindParams lt1 (objs2.zip fn.fparams) with
              | .error e => some (.error e)
              | .ok lt2 =>
                match evalFuncBody fuel fn.body lt2 env1 with
                | none => none
                | some (.error e) => some (.error e)
                | some (.ok (some r, _, env2)) => some (.ok (r, node2, env2))
                | some (.ok (none, _, env2)) => some (.ok (.pyNone, node2, env2))
            | _ => some (.error .attributeError)

end

/-! ## Claim-support definitions -/

/-- A value is exactly `Number(0)` or `Number(1)` (claim C3's
normalization property). -/
def isBool01 (v : PyNum) : Prop :=
  v = .int 0 ∨ v = .int 1

/-- Claim C5's invariant on a `List` value: the index-map keys are
exactly the contiguous range `0 .. n-1` (`n` the current length), and the
linear sequence is the values of the index map in ascending key order. -/
def listInvariant : Obj → Prop
  | .plist vals cache =>
    (vals.map Prod.fst).Perm ((List.range vals.length).map Int.ofNat) ∧
    cache.length = vals.length ∧
    ∀ i : Nat, i < vals.length → cache[i]? = dictGet vals (i : Int)
  | _ => False

/-- One built-in list mutation with its already-evaluated arguments. -/
inductive ListOp where
  | append (item : Obj)
  | pop (idx : Obj)
  | extend (other : Obj)

/-- Apply one mutation through the interpreter's built-in dispatch. -/
def applyListOp (l : Obj) : ListOp → Except PyErr Obj
  | .append item => evalBuiltinCall 0 "append" [l, item]
  | .pop idx => evalBuiltinCall 0 "pop" [l, idx]
  | .extend other => evalBuiltinCall 0 "extend" [l, other]

/-- Apply a sequence of mutations, collecting the state after each
call. -/
def applyListOps (l : Obj) : List ListOp → Except PyErr (List Obj)
  | [] => .ok []
  | op :: rest =>
    match applyListOp l op with
    | .error e => .error e
    | .ok l1 =>
      match applyListOps l1 rest with
      | .error e => .error e
      | .ok ls => .ok (l1 :: ls)

/-- Runtime objects whose class has no `visit_<name>` method: dispatching
`visit` on them raises the interpreter's no-visit exception (claim C2).
Leaked AST nodes, `FunctionNode`s and Python lists do have visitors. -/
def Obj.lacksVisitor : Obj → Bool
  | .nodeObj _ => false
  | .funcObj _ => false
  | .pyList _ => false
  | _ => true

/-- The always-true condition list `[NumberNode 1]` used by claim C6's
failing program. -/
def c6Cond : List Dyn :=
  [.node (.num (.int 1))]

/-- Claim C6's failing program: the function
`define f() { if 1 { if 1 { return 5 } } return 7 }` (written at the AST
level, since the lexer never emits the `return` keyword — see C7). -/
def c6Fn : FuncNode :=
  .mk "f" [] []
    [ .node (.ifNode
        [(c6Cond,
          [.node (.ifNode [(c6Cond, [.node (.ret (.num (.int 5)))])] none)])]
        none),
      .node (.ret (.num (.int 7))) ]

/-- A one-parameter identity-like function `define f(x) { return x }`,
used by claim C2's witness. -/
def wfn : FuncNode :=
  .mk "f" ["x"] [] [.node (.ret (.varAccess "x"))]

/-- A root environment with `wfn` bound under `"f"`. -/
def wenv : Env :=
  .top (dictSet initialRoot "f" (.funcObj wfn))

/-- Define `f`, then call it at top level; the resulting value. -/
def c6CallResult : Option Obj :=
  match evalNode 50 (.funcDef c6Fn) (.top initialRoot) with
  | some (.ok (_, _, env1)) =>
    match evalNode 50 (.funcCall "f" []) env1 with
    | some (.ok (r, _, _)) => some r
    | _ => none
  | _ => none

/-! # Theorems -/

/-! ## Lexer lemmas -/

theorem makeOperator_singles (cs : List Char) :
    makeOperator '+' cs = .ok (⟨.PLUS, "+"⟩, cs) ∧
    makeOperator '-' cs = .ok (⟨.MINUS, "-"⟩, cs) ∧
    makeOperator '*' cs = .ok (⟨.MULT, "*"⟩, cs) ∧
    makeOperator '/' cs = .ok (⟨.DIV, "/"⟩, cs) ∧
    makeOperator '^' cs = .ok (⟨.EXP, "^"⟩, cs) ∧
    makeOperator '(' cs = .ok (⟨.LPAREN, "("⟩, cs) ∧
    makeOperator ')' cs = .ok (⟨.RPAREN, ")"⟩, cs) :=
  ⟨rfl, rfl, rfl, rfl, rfl, rfl, rfl⟩

theorem makeOperator_bang (c2 : Char) (cs2 : List Char) :
    makeOperator '!' (c2 :: cs2) = .ok (⟨.N_EQ, String.mk ['!', c2]⟩, cs2) := rfl

theorem makeOperator_eq_cons (c2 : Char) (cs2 : List Char) :
    makeOperator '=' (c2 :: cs2) =
      (if c2 == '=' then .ok (⟨.IS_EQ, "=="⟩, cs2)
       else .ok (⟨.EQ, "="⟩, c2 :: cs2)) := rfl

theorem makeOperator_lt_cons (c2 : Char) (cs2 : List Char) :
    makeOperator '<' (c2 :: cs2) =
      (if c2 == '=' then .ok (⟨.LTE, "<="⟩, cs2)
       else .ok (⟨.LT, "<"⟩, c2 :: cs2)) := rfl

theorem makeOperator_gt_cons (c2 : Char) (cs2 : List Char) :
    makeOperator '>' (c2 :: cs2) =
      (if c2 == '=' then .ok (⟨.GTE, ">="⟩, cs2)
       else .ok (⟨.GT, ">"⟩, c2 :: cs2)) := rfl

theorem makeOperator_type (c : Char) (cs : List Char) (t : Token) (r : List Char)
    (hc : isOpChar c = true) (h : makeOperator c cs = .ok (t, r)) :
    t.type ∈ lexerEmittedTypes := by
  have hc' : c = '+' ∨ c = '-' ∨ c = '/' ∨ c = '*' ∨ c = '^' ∨ c = '(' ∨
      c = ')' ∨ c = '!' ∨ c = '=' ∨ c = '<' ∨ c = '>' := by
    simpa [isOpChar, Bool.or_eq_true, beq_iff_eq, or_assoc] using hc
  have finish : ∀ (tok : Token) (rest : List Char),
      (Except.ok (tok, rest) : Except PyErr (Token × List Char)) = Except.ok (t, r) →
      tok.type ∈ lexerEmittedTypes → t.type ∈ lexerEmittedTypes := by
    intro tok rest he hm
    obtain ⟨h1, -⟩ := Prod.mk.injEq .. |>.mp (Except.ok.inj he)
    exact h1 ▸ hm
  rcases hc' with rfl | rfl | rfl | rfl | rfl | rfl | rfl | rfl | rfl | rfl | rfl
  · exact finish _ _ ((makeOperator_singles cs).1 ▸ h) (by decide)
  · exact finish _ _ ((makeOperator_singles cs).2.1 ▸ h) (by decide)
  · exact finish _ _ ((makeOperator_singles cs).2.2.2.1 ▸ h) (by decide)
  · exact finish _ _ ((makeOperator_singles cs).2.2.1 ▸ h) (by decide)
  · exact finish _ _ ((makeOperator_singles cs).2.2.2.2.1 ▸ h) (by decide)
  · exact finish _ _ ((makeOperator_singles cs).2.2.2.2.2.1 ▸ h) (by decide)
  · exact finish _ _ ((makeOperator_singles cs).2.2.2.2.2.2 ▸ h) (by decide)
  · rcases cs with _ | ⟨c2, cs2⟩
    · exact absurd h (by simp [makeOperator])
    · exact finish _ _ (makeOperator_bang c2 cs2 ▸ h) (by simp [lexerEmittedTypes])
  · rcases cs with _ | ⟨c2, cs2⟩
    · exact absurd h (by simp [makeOperator])
    · rw [makeOperator_eq_cons] at h
      split_ifs at h <;> exact finish _ _ h (by decide)
  · rcases cs with _ | ⟨c2, cs2⟩
    · exact absurd h (by simp [makeOperator])
    · rw [makeOperator_lt_cons] at h
      split_ifs at h <;> exact finish _ _ h (by decide)
  · rcases cs with _ | ⟨c2, cs2⟩
    · exact absurd h (by simp [makeOperator])
    · rw [makeOperator_gt_cons] at h
      split_ifs at h <;> exact finish _ _ h (by decide)

theorem makeIdentifier_type (cs : List Char) :
    ((makeIdentifier cs).1).type ∈ lexerEmittedTypes := by
  rcases hsp : identSpan cs with ⟨a, r⟩
  simp only [makeIdentifier, hsp]
  split_ifs <;> simp [lexerEmittedTypes]

theorem makeNumber_type (c : Char) (cs : List Char) (t : Token)
    (h : (makeNumber c cs).1 = some t) : t.type ∈ lexerEmittedTypes := by
  rcases hsp : numSpan cs 0 with ⟨a, dc, r⟩
  simp only [makeNumber, hsp] at h
  split_ifs at h <;> simp only [Option.some.injEq] at h <;> rw [← h] <;>
    simp [lexerEmittedTypes]

theorem makeString_type (q : Char) (cs : List Char) :
    ((makeString q cs).1).type ∈ lexerEmittedTypes := by
  rcases hsp : strSpan q cs with ⟨a, r⟩
  simp [makeString, hsp, lexerEmittedTypes]

theorem consTok_types (t0 : Option Token)
    (rec : Option (Except PyErr (List (Option Token)))) (out : List (Option Token))
    (h : consTok t0 rec = some (.ok out))
    (h0 : ∀ t, t0 = some t → t.type ∈ lexerEmittedTypes)
    (hrec : ∀ l, rec = some (.ok l) →
      ∀ x ∈ l, ∀ t, x = some t → t.type ∈ lexerEmittedTypes) :
    ∀ x ∈ out, ∀ t, x = some t → t.type ∈ lexerEmittedTypes := by
  match rec with
  | none => simp [consTok] at h
  | some (.error e) => simp [consTok] at h
  | some (.ok l) =>
    simp only [consTok, Option.some.injEq, Except.ok.injEq] at h
    subst h
    intro x hx t hxt
    rcases List.mem_cons.mp hx with rfl | hmem
    · exact h0 t hxt
    · exact hrec l rfl x hmem t hxt

/-- Every token the lexer emits has one of the kinds of
`lexerEmittedTypes` — each `Token(...)` construction in the lexer uses a
kind from that list. -/
theorem tokenize_types (fuel : Nat) :
    ∀ (text : List Char) (out : List (Option Token)),
    tokenize fuel text = some (.ok out) →
    ∀ x ∈ out, ∀ t, x = some t → t.type ∈ lexerEmittedTypes := by
  induction fuel with
  | zero => intro text out h; simp [tokenize] at h
  | succ f ih =>
    intro text out h
    match text with
    | [] =>
      simp only [tokenize, Option.some.injEq, Except.ok.injEq] at h
      subst h
      intro x hx
      simp at hx
    | c :: cs =>
      rw [tokenize] at h
      split_ifs at h with h1 h2 h3 h4 h5 h6 h7 h8 h9
      · exact ih cs out h
      · exact consTok_types _ _ _ h
          (by rintro t ⟨rfl⟩; decide) (fun l hl => ih cs l hl)
      · exact consTok_types _ _ _ h
          (by rintro t ⟨rfl⟩; exact makeString_type c cs)
          (fun l hl => ih _ l hl)
      · exact consTok_types _ _ _ h
          (by rintro t ⟨rfl⟩; decide) (fun l hl => ih cs l hl)
      · cases hop : makeOperator c cs with
        | error e => rw [hop] at h; simp at h
        | ok pr =>
          rcases pr with ⟨t0, r0⟩
          rw [hop] at h
          exact consTok_types _ _ _ h
            (by rintro t ⟨rfl⟩; exact makeOperator_type c cs t0 r0 h5 hop)
            (fun l hl => ih r0 l hl)
      · exact consTok_types _ _ _ h
          (by rintro t ⟨rfl⟩; decide) (fun l hl => ih cs l hl)
      · exact consTok_types _ _ _ h
          (by rintro t ⟨rfl⟩; decide) (fun l hl => ih cs l hl)
      · exact consTok_types _ _ _ h
          (fun t ht => makeNumber_type c cs t ht)
          (fun l hl => ih _ l hl)
      · exact consTok_types _ _ _ h
          (by rintro t ⟨rfl⟩; exact makeIdentifier_type (c :: cs))
          (fun l hl => ih _ l hl)
      · exact ih (c :: cs) out h

/-! ## Claim C10 -/

/-- C10: for every input text, the token list produced by the lexer
contains no `ACCESS` token — the dispatch table routes `'.'` to the
number scanner and no branch of the lexer constructs a token of kind
`ACCESS`, so the parser's attribute-access branch (`IDENTIFIER` followed
by `ACCESS`) can never fire on lexer output. -/
theorem c10_no_access_token (fuel : Nat) (text : List Char) (out : List (Option Token))
    (h : tokenize fuel text = some (.ok out)) :
    ∀ x ∈ out, ∀ t, x = some t → t.type ≠ TokenType.ACCESS := by
  intro x hx t hxt hacc
  have hm := tokenize_types fuel text out h x hx t hxt
  rw [hacc] at hm
  revert hm
  decide

/-- Witness for C10 at the concrete input `"x"`. -/
theorem c10_no_access_token_witness :
    (⟨TokenType.IDENTIFIER, "x"⟩ : Token).type ≠ TokenType.ACCESS :=
  c10_no_access_token 10 ['x'] [some ⟨.IDENTIFIER, "x"⟩] rfl
    (some ⟨.IDENTIFIER, "x"⟩) (by simp) ⟨.IDENTIFIER, "x"⟩ rfl

/-! ## Claim C1 -/

/-- C1, counterexample: the spec's closed token-kind set names `LIST` and
`SLICE`, but neither is a member of the program's `TokenType` enum (the
parser's factor dispatch references `TokenType.LIST` / `TokenType.SLICE`,
attributes that do not exist). -/
theorem c1_counterexample :
    "LIST" ∈ specTokenKindNames ∧ "LIST" ∉ tokenTypeNames ∧
    "SLICE" ∈ specTokenKindNames ∧ "SLICE" ∉ tokenTypeNames := by
  decide

/-- C1 as amended: every token the lexer emits has a kind named in the
spec's closed set, and the program's token-kind type covers exactly the
spec's set minus `LIST` and `SLICE` — every enum member name is in the
spec's set, and every spec name other than `LIST` and `SLICE` is an enum
member. -/
theorem c1_token_kinds_amended :
    (∀ (fuel : Nat) (text : List Char) (out : List (Option Token)),
        tokenize fuel text = some (.ok out) →
        ∀ x ∈ out, ∀ t, x = some t → tokenTypeName t.type ∈ specTokenKindNames) ∧
    (∀ k ∈ tokenTypeNames, k ∈ specTokenKindNames) ∧
    (∀ k ∈ specTokenKindNames, k ≠ "LIST" → k ≠ "SLICE" → k ∈ tokenTypeNames) := by
  refine ⟨?_, by decide, by decide⟩
  intro fuel text out h x hx t hxt
  have hall : ∀ tt ∈ lexerEmittedTypes, tokenTypeName tt ∈ specTokenKindNames := by
    decide
  exact hall t.type (tokenize_types fuel text out h x hx t hxt)

/-- Witness for C1 at the concrete input `"x"`. -/
theorem c1_token_kinds_amended_witness :
    tokenTypeName TokenType.IDENTIFIER ∈ specTokenKindNames :=
  c1_token_kinds_amended.1 10 ['x'] [some ⟨.IDENTIFIER, "x"⟩] rfl
    (some ⟨.IDENTIFIER, "x"⟩) (by simp) ⟨.IDENTIFIER, "x"⟩ rfl

/-! ## Claim C7 -/

/-- C7, code evaluated at the failing inputs: the lexer emits
`IDENTIFIER` — not `KEYWORD` — for the lexemes `return` and `object`,
because the `KEYWORDS` list omits them, while the other eleven listed
words are emitted as `KEYWORD` (shown here for `while` and `define`).
The parser's `factor` branches for `return`/`object` statements require
`token_type == KEYWORD`, so they can never fire on lexer output. -/
theorem c7_return_object_lexed_as_identifier :
    tokenize 20 "return".data = some (.ok [some ⟨.IDENTIFIER, "return"⟩]) ∧
    tokenize 20 "object".data = some (.ok [some ⟨.IDENTIFIER, "object"⟩]) ∧
    tokenize 20 "while".data = some (.ok [some ⟨.KEYWORD, "while"⟩]) ∧
    tokenize 20 "define".data = some (.ok [some ⟨.KEYWORD, "define"⟩]) ∧
    "return" ∉ KEYWORDS ∧ "object" ∉ KEYWORDS :=
  ⟨rfl, rfl, rfl, rfl, by decide, by decide⟩

/-! ## Claim C8 -/

/-- C8, counterexample: the input `"!@"` contains `'@'`, a character
outside every recognized class, yet tokenization terminates successfully
(the `'!'` scan absorbs the following character into an `N_EQ` token) —
no error identifying the character is raised. -/
theorem c8_counterexample :
    isRecognizedChar '@' = false ∧
    tokenize 10 ['!', '@'] = some (.ok [some ⟨.N_EQ, "!@"⟩]) :=
  ⟨by decide, rfl⟩

/-- C8 as amended: when the dispatch loop reaches an unrecognized
character, no branch fires and the cursor never advances, so tokenization
never terminates (it returns `none` for every fuel bound) and in
particular never raises an error identifying the character. -/
theorem c8_unrecognized_never_terminates (fuel : Nat) (c : Char) (cs : List Char)
    (h : isRecognizedChar c = false) : tokenize fuel (c :: cs) = none := by
  induction fuel with
  | zero => rfl
  | succ f ih =>
    simp only [isRecognizedChar, Bool.or_eq_false_iff] at h
    obtain ⟨⟨⟨⟨⟨⟨⟨⟨hA, hB⟩, hC⟩, hD⟩, hE⟩, hF⟩, hG⟩, hH⟩, hI⟩ := h
    rw [tokenize]
    simp only [hA, hB, hC, hD, hE, hF, hG, hH, hI, Bool.false_eq_true, if_false]
    exact ih

/-- Witness for C8's amended theorem at the concrete character `'@'`. -/
theorem c8_unrecognized_never_terminates_witness :
    isRecognizedChar '@' = false ∧ tokenize 7 ['@'] = none :=
  ⟨by decide, c8_unrecognized_never_terminates 7 '@' [] (by decide)⟩

/-! ## Claim C3 -/

/-- `Number(bool)` is always the integer 0 or 1. -/
theorem numOfBool_isBool01 (c : Bool) : isBool01 (numOfBool c) := by
  cases c <;> simp [numOfBool, isBool01]

/-- C3, counterexample: `Number(2).anded_by(Number(3))` is `Number(3)` and
`Number(2).ored_by(Number(3))` is `Number(2)` — `and`/`or` return the
truncated selected operand, not a 0/1 boolean. -/
theorem c3_counterexample :
    numAnd (.int 2) (.int 3) = .int 3 ∧ numOr (.int 2) (.int 3) = .int 2 ∧
    PyNum.int 3 ≠ .int 0 ∧ PyNum.int 3 ≠ .int 1 ∧
    PyNum.int 2 ≠ .int 0 ∧ PyNum.int 2 ≠ .int 1 := by
  refine ⟨rfl, rfl, ?_, ?_, ?_, ?_⟩ <;> decide

/-- C3 as amended: the six comparisons and unary `not` yield exactly
`Number(0)` or `Number(1)` for all `Number` pairs; `and`/`or` yield the
`int`-truncation of the Python-truthiness-selected operand, which is a
0/1 boolean whenever both operands are themselves `Number(0)` or
`Number(1)`, but not in general. -/
theorem c3_boolean_normalization_amended :
    (∀ a b : PyNum,
        isBool01 (numIsEq a b) ∧ isBool01 (numNe a b) ∧ isBool01 (numLt a b) ∧
        isBool01 (numLe a b) ∧ isBool01 (numGt a b) ∧ isBool01 (numGe a b) ∧
        isBool01 (numNot a)) ∧
    (∀ a b : PyNum,
        numAnd a b = .int (pyIntOfScalar (if a.truthy then b else a)) ∧
        numOr a b = .int (pyIntOfScalar (if a.truthy then a else b))) ∧
    (∀ a b : PyNum, isBool01 a → isBool01 b →
        isBool01 (numAnd a b) ∧ isBool01 (numOr a b)) := by
  refine ⟨?_, fun a b => ⟨rfl, rfl⟩, ?_⟩
  · intro a b
    refine ⟨numOfBool_isBool01 _, numOfBool_isBool01 _, numOfBool_isBool01 _,
      numOfBool_isBool01 _, numOfBool_isBool01 _, numOfBool_isBool01 _, ?_⟩
    unfold numNot isBool01
    split_ifs <;> simp
  · intro a b ha hb
    rcases ha with rfl | rfl <;> rcases hb with rfl | rfl <;>
      constructor <;> unfold isBool01 <;> decide

/-- Witness for C3's amended theorem at `Number(1)`, `Number(0)`. -/
theorem c3_boolean_normalization_amended_witness :
    isBool01 (numAnd (.int 1) (.int 0)) ∧ isBool01 (numOr (.int 1) (.int 0)) :=
  c3_boolean_normalization_amended.2.2 (.int 1) (.int 0)
    (Or.inr rfl) (Or.inl rfl)

/-! ## Claim C4 -/

section

attribute [local semireducible] Rat.add Rat.sub Rat.mul Rat.inv

/-- C4, counterexample: `Number(2) ** Number(-1)` has two
integer-represented operands and is not a division, yet the result is
float-represented (`0.5`, whose `str` keeps its dot); and
`Number(1) / Number(0)` does not produce a `Number` at all — it raises
`ZeroDivisionError`. -/
theorem c4_counterexample :
    numPow (.int 2) (.int (-1)) = .ok (.float (1 / 2)) ∧
    (PyNum.float (1 / 2)).isIntTag = false ∧
    numDiv (.int 1) (.int 0) = .error .zeroDivisionError := by
  refine ⟨by rfl, rfl, rfl⟩

/-- C4 as amended: `+`, `-`, `*` on two integer-represented `Number`s
yield the exact integer-represented result, and `^` with a non-negative
integer exponent likewise; `^` on base 0 with a negative exponent and `/`
by zero raise `ZeroDivisionError`; every other `/` and negative-exponent
`^` result is the Python float passed through `Number.__init__`'s
re-classification (`mkNumFloat`) and is therefore *not* always
float-represented: `1 / 100000`, `10 ^ -5` and `0.0001 * 0.0001` all
yield the integer-represented `Number(0)`, and `5e15 + 5e15` the
integer-represented `Number(10^16)`. -/
theorem c4_numeric_closure_amended :
    (∀ a b : Int,
        numAdd (.int a) (.int b) = .int (a + b) ∧
        numSub (.int a) (.int b) = .int (a - b) ∧
        numMul (.int a) (.int b) = .int (a * b)) ∧
    (∀ a b : Int, 0 ≤ b → numPow (.int a) (.int b) = .ok (.int (a ^ b.toNat))) ∧
    (∀ a b : Int, b < 0 → a ≠ 0 →
        numPow (.int a) (.int b) = .ok (mkNumFloat (ratPow (a : Rat) (b : Rat)))) ∧
    (∀ b : Int, b < 0 → numPow (.int 0) (.int b) = .error .zeroDivisionError) ∧
    (∀ a b : PyNum, b.toRat ≠ 0 →
        numDiv a b = .ok (mkNumFloat (a.toRat / b.toRat))) ∧
    (∀ a : PyNum, numDiv a (.int 0) = .error .zeroDivisionError) ∧
    (numDiv (.int 1) (.int 100000) = .ok (.int 0) ∧
      numPow (.int 10) (.int (-5)) = .ok (.int 0) ∧
      numMul (.float (1 / 10000)) (.float (1 / 10000)) = .int 0 ∧
      numAdd (.float 5000000000000000) (.float 5000000000000000) =
        .int 10000000000000000) := by
  refine ⟨fun a b => ⟨rfl, rfl, rfl⟩, ?_, ?_, ?_, ?_, ?_,
    by rfl, by rfl, by rfl, by rfl⟩
  · intro a b hb
    simp [numPow, hb]
  · intro a b hb ha
    simp [numPow, not_le.mpr hb, ha]
  · intro b hb
    simp [numPow, not_le.mpr hb]
  · intro a b hb
    simp [numDiv, hb]
  · intro a
    simp [numDiv, PyNum.toRat]

/-- Witness for C4's amended theorem at concrete operands. -/
theorem c4_numeric_closure_amended_witness :
    numPow (.int 2) (.int 3) = .ok (.int (2 ^ (3 : Int).toNat)) ∧
    numPow (.int 2) (.int (-1)) =
      .ok (mkNumFloat (ratPow ((2 : Int) : Rat) (((-1) : Int) : Rat))) ∧
    numPow (.int 0) (.int (-1)) = .error .zeroDivisionError ∧
    numDiv (.int 1) (.int 2) =
      .ok (mkNumFloat ((PyNum.int 1).toRat / (PyNum.int 2).toRat)) :=
  ⟨c4_numeric_closure_amended.2.1 2 3 (by norm_num),
   c4_numeric_closure_amended.2.2.1 2 (-1) (by norm_num) (by norm_num),
   c4_numeric_closure_amended.2.2.2.1 (-1) (by norm_num),
   c4_numeric_closure_amended.2.2.2.2.1 (.int 1) (.int 2) (by decide)⟩

end

/-! ## Claim C9 -/

/-- C9, counterexample: `"ab" - "b"` does not evaluate to the `String`
`"a"` (it raises `TypeError`). -/
theorem c9_counterexample :
    binOpValues ⟨.MINUS, "-"⟩ (.pstr "ab") (.pstr "b") ≠ .ok (.pstr "a") := by
  intro h
  have h0 : binOpValues ⟨.MINUS, "-"⟩ (.pstr "ab") (.pstr "b") =
      .error .typeError := rfl
  rw [h0] at h
  exact Except.noConfusion h

/-- C9 as amended: for every two `String` values, the `-` operation
raises `TypeError` and never produces a value — `String(left_node)`
already fails enumerating a `String` instance, and `str - str` is
unsupported in Python. -/
theorem c9_string_minus_amended (a b v : String) :
    binOpValues ⟨.MINUS, v⟩ (.pstr a) (.pstr b) = .error .typeError := rfl

/-! ## Claim C5 -/

theorem dictGet_mem_keys {d : List (Int × Obj)} {k : Int} {v : Obj}
    (h : dictGet d k = some v) : k ∈ d.map Prod.fst := by
  unfold dictGet at h
  cases hf : d.find? (fun p => p.1 == k) with
  | none => rw [hf] at h; simp at h
  | some pr =>
    have hm := List.mem_of_find?_eq_some hf
    have hp : pr.1 = k := by simpa using List.find?_some hf
    exact hp ▸ List.mem_map_of_mem Prod.fst hm

theorem buildCache_spec (vals : List (Int × Obj)) :
    ∀ (k : Nat) (acc : List Obj), buildCache vals k = .ok acc →
    acc.length = k ∧
    ∀ i : Nat, i < k → ∃ v, acc[i]? = some v ∧ cacheItem vals i = .ok v := by
  intro k
  induction k with
  | zero =>
    intro acc h
    simp only [buildCache, Except.ok.injEq] at h
    subst h
    simp
  | succ k ih =>
    intro acc h
    rw [buildCache] at h
    cases hb : buildCache vals k with
    | error e => rw [hb] at h; simp at h
    | ok acc0 =>
      rw [hb] at h
      cases hc : cacheItem vals k with
      | error e => rw [hc] at h; simp at h
      | ok v =>
        rw [hc] at h
        simp only [Except.ok.injEq] at h
        subst h
        obtain ⟨hlen, hall⟩ := ih acc0 hb
        refine ⟨by simp [hlen], ?_⟩
        intro i hi
        rcases Nat.lt_succ_iff_lt_or_eq.mp hi with hlt | rfl
        · obtain ⟨v0, hv0, hci⟩ := hall i hlt
          refine ⟨v0, ?_, hci⟩
          rw [List.getElem?_append, if_pos (hlen ▸ hlt)]
          exact hv0
        · refine ⟨v, ?_, hc⟩
          rw [List.getElem?_append_right (le_of_eq hlen), hlen]
          simp

theorem cacheItem_ok {vals : List (Int × Obj)} {i : Nat} {v : Obj}
    (h : cacheItem vals i = .ok v) : dictGet vals (i : Int) = some v := by
  unfold cacheItem at h
  cases hg : dictGet vals (i : Int) with
  | none => rw [hg] at h; simp at h
  | some v0 =>
    rw [hg] at h
    dsimp only at h
    split_ifs at h with hv
    simp only [Except.ok.injEq] at h
    rw [h]

/-- Success of the rebuild comprehension forces claim C5's invariant: the
indexes `0 .. n-1` must all be present (else `KeyError`), there are only
`n` key slots, and the rebuilt cache is exactly the ascending-key value
sequence. -/
theorem rebuildCache_invariant (vals : List (Int × Obj)) (o : Obj)
    (h : rebuildCache vals = .ok o) : listInvariant o := by
  unfold rebuildCache at h
  cases hb : buildCache vals vals.length with
  | error e => rw [hb] at h; simp [Except.map] at h
  | ok cache =>
    rw [hb] at h
    simp only [Except.map, Except.ok.injEq] at h
    subst h
    obtain ⟨hlen, hall⟩ := buildCache_spec vals vals.length cache hb
    refine ⟨?_, hlen, ?_⟩
    · have hsub : ((List.range vals.length).map Int.ofNat) ⊆ vals.map Prod.fst := by
        intro x hx
        simp only [List.mem_map, List.mem_range] at hx
        obtain ⟨i, hi, rfl⟩ := hx
        obtain ⟨v, -, hci⟩ := hall i hi
        exact dictGet_mem_keys (cacheItem_ok hci)
      have hnd : ((List.range vals.length).map Int.ofNat).Nodup :=
        (List.nodup_range _).map (fun a b hab => Int.ofNat.inj hab)
      have hlenR : ((List.range vals.length).map Int.ofNat).length =
          (vals.map Prod.fst).length := by simp
      exact ((hnd.subperm hsub).perm_of_length_le (le_of_eq hlenR.symm)).symm
    · intro i hi
      obtain ⟨v, hv, hci⟩ := hall i hi
      rw [hv, cacheItem_ok hci]

theorem pyAppend_invariant (vals : List (Int × Obj)) (item : Obj) (l1 : Obj)
    (h : pyAppend vals item = .ok l1) : listInvariant l1 := by
  unfold pyAppend at h
  cases hm : maxKey vals with
  | error e => rw [hm] at h; simp [bind, Except.bind] at h
  | ok m =>
    rw [hm] at h
    simp only [bind, Except.bind] at h
    exact rebuildCache_invariant _ _ h

theorem pyPop_invariant (vals : List (Int × Obj)) (idxObj : Obj) (l1 : Obj)
    (h : pyPop vals idxObj = .ok l1) : listInvariant l1 := by
  unfold pyPop at h
  cases hk : popKey idxObj with
  | error e => rw [hk] at h; simp [bind, Except.bind] at h
  | ok idx =>
    rw [hk] at h
    simp only [bind, Except.bind] at h
    split at h
    · simp at h
    · split at h
      · simp at h
      · exact rebuildCache_invariant _ _ h

theorem pyExtend_invariant (vals : List (Int × Obj)) (other : List Obj) (l1 : Obj)
    (h : pyExtend vals other = .ok l1) : listInvariant l1 := by
  unfold pyExtend at h
  cases hm : maxKey vals with
  | error e => rw [hm] at h; simp [bind, Except.bind] at h
  | ok m =>
    rw [hm] at h
    simp only [bind, Except.bind] at h
    exact rebuildCache_invariant _ _ h

theorem applyListOp_invariant (l : Obj) (op : ListOp) (l1 : Obj)
    (h : applyListOp l op = .ok l1) : listInvariant l1 := by
  rcases op with item | idx | other <;>
    unfold applyListOp evalBuiltinCall at h
  · match l with
    | .plist vals cache => exact pyAppend_invariant vals item l1 h
    | .num _ | .pstr _ | .pyNone | .tup _ _ | .pyList _ | .nodeObj _
    | .funcObj _ | .table _ | .pdict _ => simp at h
  · match l with
    | .plist vals cache => exact pyPop_invariant vals idx l1 h
    | .num _ | .pstr _ | .pyNone | .tup _ _ | .pyList _ | .nodeObj _
    | .funcObj _ | .table _ | .pdict _ => simp at h
  · match l with
    | .plist vals cache =>
      match other with
      | .plist vb _ => exact pyExtend_invariant vals (vb.map Prod.snd) l1 h
      | .pstr s => exact pyExtend_invariant vals _ l1 h
      | .num _ | .pyNone | .tup _ _ | .pyList _ | .nodeObj _
      | .funcObj _ | .table _ | .pdict _ => simp at h
    | .num _ | .pstr _ | .pyNone | .tup _ _ | .pyList _ | .nodeObj _
    | .funcObj _ | .table _ | .pdict _ => simp at h

theorem applyListOps_invariant (ops : List ListOp) :
    ∀ (l : Obj) (states : List Obj), applyListOps l ops = .ok states →
    ∀ s ∈ states, listInvariant s := by
  induction ops with
  | nil =>
    intro l states h s hs
    simp only [applyListOps, Except.ok.injEq] at h
    subst h
    simp at hs
  | cons op rest ih =>
    intro l states h s hs
    rw [applyListOps] at h
    cases h1 : applyListOp l op with
    | error e => rw [h1] at h; simp at h
    | ok l1 =>
      rw [h1] at h
      dsimp only at h
      cases h2 : applyListOps l1 rest with
      | error e => rw [h2] at h; simp at h
      | ok ls =>
        rw [h2] at h
        dsimp only at h
        simp only [Except.ok.injEq] at h
        subst h
        rcases List.mem_cons.mp hs with rfl | hmem
        · exact applyListOp_invariant l op s h1
        · exact ih l1 ls h2 s hmem

/-- C5: for every list value and every finite sequence of the built-in
mutations `append`, `pop`, `extend` applied to it (through the
interpreter's built-in dispatch), after each completed call the list's
index-map keys are exactly the contiguous range `0 .. n-1` (`n` the
current length) and the linear sequence equals the values of the index
map in ascending key order.  A call that raises (for example `append` on
an emptied list, or `pop` on an index-scrambled state whose re-keying
produces key `-1`) terminates evaluation instead. -/
theorem c5_list_continuity :
    (∀ (l : Obj) (op : ListOp) (l1 : Obj),
        applyListOp l op = .ok l1 → listInvariant l1) ∧
    (∀ (l : Obj) (ops : List ListOp) (states : List Obj),
        applyListOps l ops = .ok states → ∀ s ∈ states, listInvariant s) :=
  ⟨applyListOp_invariant, fun l ops states h => applyListOps_invariant ops l states h⟩

/-- Witness for C5: the scenario `lst = [1, 2, 3]; append(lst, 4);
pop(lst, 0)` runs to completion and the final state satisfies the
invariant (its insertion order is scrambled, but its key set is
`{0, 1, 2}` and its linear sequence `[2, 3, 4]`). -/
theorem c5_list_continuity_witness :
    applyListOps
      (Obj.plist [(0, .num (.int 1)), (1, .num (.int 2)), (2, .num (.int 3))]
        [.num (.int 1), .num (.int 2), .num (.int 3)])
      [ListOp.append (.num (.int 4)), ListOp.pop (.num (.int 0))] =
      .ok [Obj.plist [(0, .num (.int 1)), (1, .num (.int 2)), (2, .num (.int 3)),
              (3, .num (.int 4))]
             [.num (.int 1), .num (.int 2), .num (.int 3), .num (.int 4)],
           Obj.plist [(1, .num (.int 3)), (2, .num (.int 4)), (0, .num (.int 2))]
             [.num (.int 2), .num (.int 3), .num (.int 4)]] ∧
    listInvariant
      (Obj.plist [(1, .num (.int 3)), (2, .num (.int 4)), (0, .num (.int 2))]
        [.num (.int 2), .num (.int 3), .num (.int 4)]) :=
  ⟨by rfl,
   c5_list_continuity.2
     (Obj.plist [(0, .num (.int 1)), (1, .num (.int 2)), (2, .num (.int 3))]
       [.num (.int 1), .num (.int 2), .num (.int 3)])
     [ListOp.append (.num (.int 4)), ListOp.pop (.num (.int 0))]
     [Obj.plist [(0, .num (.int 1)), (1, .num (.int 2)), (2, .num (.int 3)),
         (3, .num (.int 4))]
        [.num (.int 1), .num (.int 2), .num (.int 3), .num (.int 4)],
      Obj.plist [(1, .num (.int 3)), (2, .num (.int 4)), (0, .num (.int 2))]
        [.num (.int 2), .num (.int 3), .num (.int 4)]]
     (by rfl) _ (by simp)⟩

/-! ## Claim C2 -/

theorem evalDyn_obj_noVisitor (fuel : Nat) (v : Obj) (env : Env)
    (hv : v.lacksVisitor = true) :
    evalDyn (fuel + 1) (.obj v) env = some (.error .noVisitMethod) := by
  cases v <;> first
    | rfl
    | simp [Obj.lacksVisitor] at hv

theorem evalSeq_obj_noVisitor (fuel : Nat) (v : Obj) (ds : List Dyn) (env : Env)
    (hv : v.lacksVisitor = true) :
    evalSeq (fuel + 2) (.obj v :: ds) env = some (.error .noVisitMethod) := by
  rw [evalSeq, evalDyn_obj_noVisitor fuel v env hv]

theorem c2_builtin_overwrite (fuel : Nat) (name : String) (ds : List Dyn) (env : Env)
    (r : Obj) (n1 : Node) (env1 : Env)
    (h : evalNode (fuel + 1) (.builtin name ds) env = some (.ok (r, n1, env1))) :
    ∃ objs ds1 env2, evalSeq fuel ds env = some (.ok (objs, ds1, env2)) ∧
      n1 = .builtin name (objs.map Dyn.obj) := by
  rw [evalNode] at h
  cases hs : evalSeq fuel ds env with
  | none => rw [hs] at h; simp at h
  | some res =>
    rw [hs] at h
    cases res with
    | error e => simp at h
    | ok tr =>
      obtain ⟨objs, ds1, env2⟩ := tr
      dsimp only at h
      cases hb : evalBuiltinCall fuel name objs with
      | error e => rw [hb] at h; simp at h
      | ok r0 =>
        rw [hb] at h
        simp only [Option.some.injEq, Except.ok.injEq, Prod.mk.injEq] at h
        obtain ⟨-, h2, -⟩ := h
        exact ⟨objs, ds1, env2, rfl, h2.symm⟩

theorem c2_funcCall_overwrite (fuel : Nat) (name : String) (ds : List Dyn) (env : Env)
    (r : Obj) (n1 : Node) (env1 : Env)
    (h : evalNode (fuel + 1) (.funcCall name ds) env = some (.ok (r, n1, env1))) :
    ∃ objs2 : List Dyn, n1 = .funcCall name objs2 ∧
      ∀ d ∈ objs2, ∃ v : Obj, d = .obj v := by
  have extract : ∀ (objs2 : List Obj), n1 = .funcCall name (objs2.map Dyn.obj) →
      ∃ objs2 : List Dyn, n1 = .funcCall name objs2 ∧
        ∀ d ∈ objs2, ∃ v : Obj, d = .obj v := by
    intro objs2 he
    refine ⟨objs2.map Dyn.obj, he, ?_⟩
    intro d hd
    simp only [List.mem_map] at hd
    obtain ⟨v, -, rfl⟩ := hd
    exact ⟨v, rfl⟩
  rw [evalNode] at h
  cases fuel with
  | zero => simp [evalFuncCall] at h
  | succ f =>
    rw [evalFuncCall] at h
    split at h
    · simp at h
    · split at h
      · simp at h
      · split at h
        · simp at h
        · simp at h
        · split at h
          · simp at h
          · split at h
            · dsimp only at h
              split at h
              · simp at h
              · split at h
                · simp at h
                · simp at h
                · simp only [Option.some.injEq, Except.ok.injEq, Prod.mk.injEq] at h
                  obtain ⟨-, h2, -⟩ := h
                  exact extract _ h2.symm
                · simp only [Option.some.injEq, Except.ok.injEq, Prod.mk.injEq] at h
                  obtain ⟨-, h2, -⟩ := h
                  exact extract _ h2.symm
            · simp at h

theorem c2_builtin_second_eval (fuel : Nat) (name : String) (v : Obj) (ds : List Dyn)
    (env : Env) (hv : v.lacksVisitor = true) :
    evalNode (fuel + 3) (.builtin name (Dyn.obj v :: ds)) env =
      some (.error .noVisitMethod) := by
  rw [evalNode, evalSeq_obj_noVisitor fuel v ds env hv]

theorem c2_funcCall_second_eval (fuel : Nat) (name : String) (fn : FuncNode)
    (v : Obj) (ds : List Dyn) (env : Env) (hv : v.lacksVisitor = true)
    (hlook : dictGet env.cur name = some (.funcObj fn)) :
    evalNode (fuel + 4) (.funcCall name (Dyn.obj v :: ds)) env =
      some (.error .noVisitMethod) := by
  rw [evalNode, evalFuncCall, hlook]
  dsimp only
  rw [evalSeq_obj_noVisitor fuel v ds env hv]

/-- C2: evaluating a built-in call node or a user function-call node is
not repeatable on the same AST node.  First conjunct pair: any successful
evaluation of such a node returns it with `node.params` overwritten by
the computed argument values (wrapped objects, no longer the original
argument expressions).  Second conjunct pair: re-evaluating a call node
whose first stored argument is a plain value object (a `Number`,
`String`, `List`, `None`, tuple, symbol table or dict — anything without
a `visit_<class>` method) dispatches on the value object and raises the
interpreter's no-visit exception instead of behaving as a fresh
evaluation. -/
theorem c2_call_params_overwritten :
    (∀ (fuel : Nat) (name : String) (ds : List Dyn) (env : Env)
        (r : Obj) (n1 : Node) (env1 : Env),
        evalNode (fuel + 1) (.builtin name ds) env = some (.ok (r, n1, env1)) →
        ∃ objs ds1 env2, evalSeq fuel ds env = some (.ok (objs, ds1, env2)) ∧
          n1 = .builtin name (objs.map Dyn.obj)) ∧
    (∀ (fuel : Nat) (name : String) (ds : List Dyn) (env : Env)
        (r : Obj) (n1 : Node) (env1 : Env),
        evalNode (fuel + 1) (.funcCall name ds) env = some (.ok (r, n1, env1)) →
        ∃ objs2 : List Dyn, n1 = .funcCall name objs2 ∧
          ∀ d ∈ objs2, ∃ v : Obj, d = .obj v) ∧
    (∀ (fuel : Nat) (name : String) (v : Obj) (ds : List Dyn) (env : Env),
        v.lacksVisitor = true →
        evalNode (fuel + 3) (.builtin name (Dyn.obj v :: ds)) env =
          some (.error .noVisitMethod)) ∧
    (∀ (fuel : Nat) (name : String) (fn : FuncNode) (v : Obj) (ds : List Dyn)
        (env : Env), v.lacksVisitor = true →
        dictGet env.cur name = some (.funcObj fn) →
        evalNode (fuel + 4) (.funcCall name (Dyn.obj v :: ds)) env =
          some (.error .noVisitMethod)) :=
  ⟨c2_builtin_overwrite, c2_funcCall_overwrite,
   c2_builtin_second_eval, c2_funcCall_second_eval⟩

/-- Witness for C2: `print(3)` evaluated once stores `Number(3)` in the
node's params; its second evaluation (and that of `f(3)`'s mutated node)
raises the no-visit exception. -/
theorem c2_call_params_overwritten_witness :
    (∃ objs ds1 env2,
        evalSeq 4 [Dyn.node (.num (.int 3))] (Env.top initialRoot) =
          some (.ok (objs, ds1, env2)) ∧
        Node.builtin "print" [Dyn.obj (.num (.int 3))] =
          .builtin "print" (objs.map Dyn.obj)) ∧
    (∃ objs2 : List Dyn,
        Node.funcCall "f" [Dyn.obj (.num (.int 3))] = .funcCall "f" objs2 ∧
        ∀ d ∈ objs2, ∃ v : Obj, d = .obj v) ∧
    evalNode 7 (.builtin "print" [Dyn.obj (.num (.int 3))]) (Env.top initialRoot) =
      some (.error .noVisitMethod) ∧
    evalNode 7 (.funcCall "f" [Dyn.obj (.num (.int 3))]) wenv =
      some (.error .noVisitMethod) :=
  ⟨c2_call_params_overwritten.1 4 "print" [Dyn.node (.num (.int 3))]
     (Env.top initialRoot) (.tup "print" "3")
     (.builtin "print" [Dyn.obj (.num (.int 3))]) (Env.top initialRoot) (by rfl),
   c2_call_params_overwritten.2.1 9 "f" [Dyn.node (.num (.int 3))] wenv
     (.num (.int 3)) (.funcCall "f" [Dyn.obj (.num (.int 3))]) wenv (by rfl),
   c2_call_params_overwritten.2.2.1 4 "print" (.num (.int 3)) []
     (Env.top initialRoot) (by rfl),
   c2_call_params_overwritten.2.2.2 3 "f" wfn (.num (.int 3)) [] wenv
     (by rfl) (by rfl)⟩

/-! ## Claim C6 -/

/-- C6, the code evaluated at the failing input: calling
`define f() { if 1 { if 1 { return 5 } } return 7 }` yields `Number(7)`,
not `Number(5)` — the inner `return 5` reaches `visit_IfNode` of the
outer `if` as a `ReturnNode` result, is appended to that block's result
list instead of being propagated (`visit_IfNode` checks only whether the
*statement* is a `ReturnNode`, never the statement's result), and the
statement after the nested `if` then executes. -/
theorem c6_nested_return_swallowed : c6CallResult = some (.num (.int 7)) := by
  rfl
